import Mathlib

/-!
Verification development for the CFG Ukraine financial-analytics agent
(`src/agent.py`, `src/query_classifier.py`,
`src/azure_function/shared/conversation_memory.py`).

The Python source is shallowly embedded: Python `str` values are Lean
`String`s (a list of characters, as in CPython), numbers are exact `Rat`
values, Python dicts that the examined code reads with `d[k]` /
`k in d` / `d.get(k, default)` are association lists wrapped in a `PyVal`
tree, and code that can raise returns `Except String α` where the error
string names the Python exception (for `KeyError(k)` we use the string
`"KeyError: " ++ k`).  Python's `re.search` on the classifier's fixed
pattern set is embedded by a small backtracking regex engine covering
exactly the constructs those patterns use (literals, `.`, `\d`, `\s`,
sets, alternation, greedy `?`, `*`/`+` over one-character classes,
`\b`, `^`).  Word characters, case mapping and whitespace are modelled at
ASCII, which covers the fixed vocabulary the source matches against.
-/

/-- Python whitespace for `str.strip` and the regex class `\s`
(ASCII: space, tab, newline, carriage return, form feed, vertical tab). -/
def pyIsSpace (c : Char) : Bool :=
  c = ' ' || c = '\t' || c = '\n' || c = '\r' || c = '\x0b' || c = '\x0c'

/-- Python `str.strip()`: drop leading and trailing whitespace. -/
def pyStrip (s : String) : String :=
  ⟨((s.data.dropWhile pyIsSpace).reverse.dropWhile pyIsSpace).reverse⟩

/-- Python `str.lower()` (ASCII letters; the queries and pattern
vocabulary in the source are ASCII). -/
def pyLower (s : String) : String :=
  ⟨s.data.map Char.toLower⟩

/-- Python `str.upper()` (ASCII letters). -/
def pyUpper (s : String) : String :=
  ⟨s.data.map Char.toUpper⟩

/-- Occurrence of `p` as a contiguous sublist of the second list
(Python `p in l` on strings). -/
def occursIn (p : List Char) : List Char → Bool
  | [] => p.isPrefixOf []
  | c :: rest => p.isPrefixOf (c :: rest) || occursIn p rest

/-- Python `needle in hay` for strings. -/
def pyIn (needle hay : String) : Bool :=
  occursIn needle.data hay.data

/-- Python `s.count(c)` for a one-character argument. -/
def pyCountChar (s : String) (c : Char) : Nat :=
  s.data.count c

/-- Split a character list at every occurrence of `sep`, keeping empty
pieces (`n` separators give `n + 1` pieces). -/
def splitOnChar (sep : Char) : List Char → List (List Char)
  | [] => [[]]
  | c :: rest =>
    if c = sep then [] :: splitOnChar sep rest
    else
      match splitOnChar sep rest with
      | [] => [[c]]
      | piece :: pieces => (c :: piece) :: pieces

/-- Python `s.split(sep)` for a one-character separator: keeps empty
pieces. -/
def pySplitOn (s : String) (sep : Char) : List String :=
  (splitOnChar sep s.data).map (fun l => ⟨l⟩)

-- ---------------------------------------------------------------------------
-- A small regex engine: just the constructs used by the source's patterns.
-- ---------------------------------------------------------------------------

/-- One-character classes appearing in the source's regexes. -/
inductive CharClass where
  /-- Model of `.` : any character except a newline (no `re.DOTALL`). -/
  | anyNoNl : CharClass
  /-- Model of `\d` (ASCII digits). -/
  | digit : CharClass
  /-- Model of `\s` (Python whitespace, ASCII). -/
  | space : CharClass
  /-- An explicit set such as `[1-4]` (listed out) or `[-•]`. -/
  | set (cs : List Char) : CharClass
deriving DecidableEq

/-- Does a character belong to a class? -/
def ccMatch : CharClass → Char → Bool
  | .anyNoNl, c => c ≠ '\n'
  | .digit, c => c.isDigit
  | .space, c => pyIsSpace c
  | .set cs, c => cs.contains c

/-- The regex fragment language of the source's fixed patterns.  `starC`
and `plusC` quantify only over one-character classes, which is all the
source's patterns need (`.*`, `.+`, `\d+`, `\s*`, `\s+`). -/
inductive RE where
  | eps : RE
  | lit (c : Char) : RE
  | cls (cc : CharClass) : RE
  | seq (a b : RE) : RE
  | alt (a b : RE) : RE
  /-- Greedy `(...)?`. -/
  | opt (a : RE) : RE
  /-- Greedy `X*` for a one-character class `X`. -/
  | starC (cc : CharClass) : RE
  /-- Greedy `X+` for a one-character class `X`. -/
  | plusC (cc : CharClass) : RE
  /-- Model of `\b`. -/
  | wordB : RE
  /-- Model of `^` (start of string: the source compiles without `re.MULTILINE`). -/
  | bos : RE
deriving DecidableEq

/-- Python regex word characters (ASCII: letters, digits, underscore). -/
def isWordChar (c : Char) : Bool :=
  c.isAlpha || c.isDigit || c = '_'

/-- Model of `\b` holds at a position iff exactly one of the adjacent characters
is a word character (a missing neighbour at the ends counts as
non-word). -/
def boundaryAt (prev : Option Char) (s : List Char) : Bool :=
  let l := match prev with | none => false | some c => isWordChar c
  let r := match s with | [] => false | c :: _ => isWordChar c
  l != r

/-- Greedy Kleene star over a one-character class, in continuation
style: longer consumptions are tried first, as Python's backtracking
engine does. -/
def starLoop {α : Type} (cc : CharClass) (k : Option Char → List Char → Option α) :
    Option Char → List Char → Option α
  | prev, [] => k prev []
  | prev, x :: rest =>
    if ccMatch cc x then
      (starLoop cc k (some x) rest).orElse (fun _ => k prev (x :: rest))
    else
      k prev (x :: rest)

/-- Backtracking matcher in continuation style.  `prev` is the character
just before the current position (for `\b` and `^`), `s` the rest of the
input.  Alternatives are tried left first and quantifiers greedily,
matching Python's preference order. -/
def matchE {α : Type} : RE → Option Char → List Char → (Option Char → List Char → Option α) → Option α
  | .eps, prev, s, k => k prev s
  | .lit c, _, s, k =>
    match s with
    | [] => none
    | x :: rest => if x = c then k (some x) rest else none
  | .cls cc, _, s, k =>
    match s with
    | [] => none
    | x :: rest => if ccMatch cc x then k (some x) rest else none
  | .seq a b, prev, s, k => matchE a prev s (fun p2 s2 => matchE b p2 s2 k)
  | .alt a b, prev, s, k => (matchE a prev s k).orElse (fun _ => matchE b prev s k)
  | .opt a, prev, s, k => (matchE a prev s k).orElse (fun _ => k prev s)
  | .starC cc, prev, s, k => starLoop cc k prev s
  | .plusC cc, _, s, k =>
    match s with
    | [] => none
    | x :: rest => if ccMatch cc x then starLoop cc k (some x) rest else none
  | .wordB, prev, s, k => if boundaryAt prev s then k prev s else none
  | .bos, prev, s, k => if prev.isNone then k prev s else none

/-- Is there a match of `r` starting at the current position or later? -/
def searchAux (r : RE) : Option Char → List Char → Bool
  | prev, [] => (matchE r prev [] (fun _ s2 => some s2)).isSome
  | prev, x :: rest =>
    (matchE r prev (x :: rest) (fun _ s2 => some s2)).isSome || searchAux r x rest

/-- Python `re.search(r, s) is not None`. -/
def reSearch (r : RE) (s : String) : Bool :=
  searchAux r none s.data

/-- Leftmost match for `re.split`: scan forward; at the first position
where `r` matches (consuming at least one character), return the piece
scanned so far, the character just before the match end, and the rest of
the input.  The source's split patterns cannot match the empty string; a
zero-width match is skipped to keep the scan well defined. -/
def findAux (r : RE) : Option Char → List Char → List Char →
    Option (List Char × Option Char × List Char)
  | prev, acc, s =>
    match matchE r prev s (fun p2 s2 => some (p2, s2)) with
    | some (p2, s2) =>
      if s2.length < s.length then some (acc.reverse, p2, s2)
      else
        match s with
        | [] => none
        | x :: rest => findAux r (some x) (x :: acc) rest
    | none =>
      match s with
      | [] => none
      | x :: rest => findAux r (some x) (x :: acc) rest
termination_by _ _ s => s.length

/-- Python `re.split(r, s)`: split on successive non-overlapping
leftmost matches. -/
def reSplitAux (r : RE) : Nat → Option Char → List Char → List (List Char)
  | 0, _, s => [s]
  | fuel + 1, prev, s =>
    match findAux r prev [] s with
    | none => [s]
    | some (piece, p2, s2) => piece :: reSplitAux r fuel p2 s2

/-- Python `re.split(r, s)` on a pattern that consumes at least one
character per match. -/
def reSplit (r : RE) (s : String) : List String :=
  (reSplitAux r (s.data.length + 1) none s.data).map (fun l => ⟨l⟩)

-- ---------------------------------------------------------------------------
-- Helpers to write the source's patterns down compactly.
-- ---------------------------------------------------------------------------

/-- Sequence a list of fragments. -/
def rcat (l : List RE) : RE :=
  l.foldr RE.seq RE.eps

/-- A literal string as a regex. -/
def rstr (s : String) : RE :=
  rcat (s.data.map RE.lit)

/-- Alternation over a non-empty list (left preference, in list order). -/
def raltL : List RE → RE
  | [] => RE.eps
  | [r] => r
  | r :: rest => RE.alt r (raltL rest)

/-- Alternation of literal words, as in a group `(a|b|c)`. -/
def rwords (ws : List String) : RE :=
  raltL (ws.map rstr)

/-- A literal string matched case-insensitively (for `re.IGNORECASE`). -/
def rstrCI (s : String) : RE :=
  rcat (s.data.map (fun c => RE.cls (.set [c.toLower, c.toUpper])))

/-- Alternation of case-insensitive literal words. -/
def rwordsCI (ws : List String) : RE :=
  raltL (ws.map rstrCI)

-- ---------------------------------------------------------------------------
-- src/query_classifier.py : SIGNAL_PATTERNS, OVERRIDE_PATTERNS and classify.
-- ---------------------------------------------------------------------------

/-- Model of `\bw\b` for a literal word or phrase `w`. -/
def rword (w : String) : RE :=
  rcat [.wordB, rstr w, .wordB]

/-- Model of `SIGNAL_PATTERNS["DESCRIPTIVE"]["strong"]`. -/
def descriptiveStrong : List RE :=
  [ rcat [.wordB, rstr "what ", rwords ["is", "are", "was", "were"], .wordB],
    rcat [.wordB, rstr "show ", .opt (rwords ["me", "us"]), .wordB],
    rword "list",
    rword "display",
    rword "tell me",
    rword "how much",
    rword "how many",
    rcat [.wordB, rstr "what", rwords ["'s", " is"], rstr " the ",
          rwords ["total", "current", "latest"], .wordB],
    rcat [.wordB, rstr "summar", rwords ["y", "ize"], .wordB],
    rword "breakdown",
    rcat [.wordB, rstr "by ", rwords ["month", "quarter", "year", "crop"], .wordB],
    rcat [.wordB, rstr "for ",
          raltL [rcat [rstr "20", .cls .digit, .cls .digit],
                 rcat [rstr "FY", .cls .digit, .cls .digit],
                 rcat [rstr "Q", .cls (.set ['1', '2', '3', '4'])]], .wordB] ]

/-- Model of `SIGNAL_PATTERNS["DESCRIPTIVE"]["weak"]`. -/
def descriptiveWeak : List RE :=
  [ rword "trend",
    rcat [.wordB, rstr "histor", rwords ["y", "ical"], .wordB],
    rword "data",
    rword "numbers" ]

/-- Model of `SIGNAL_PATTERNS["DIAGNOSTIC"]["strong"]`. -/
def diagnosticStrong : List RE :=
  [ rword "why did",
    rcat [.wordB, rstr "why ", rwords ["is", "are", "was", "were"], .wordB],
    rword "explain",
    rcat [.wordB, rstr "what ", rwords ["caused", "drove", "contributed"], .wordB],
    rword "root cause",
    rword "variance",
    rcat [.wordB, rstr "vs", .opt (.lit '.'), rstr " ",
          rwords ["budget", "plan", "forecast", "last year"], .wordB],
    rcat [.wordB, rstr "compare", .opt (.lit 'd'), rstr " to", .wordB],
    rword "difference between",
    rcat [.wordB, rstr "beat", .opt (rstr "en"), rstr " budget", .wordB],
    rcat [.wordB, rstr "miss", .opt (rstr "ed"), rstr " ",
          rwords ["budget", "target"], .wordB],
    rcat [.wordB, rstr "analyz", rwords ["e", "sis"], .wordB],
    rword "what happened" ]

/-- Model of `SIGNAL_PATTERNS["DIAGNOSTIC"]["weak"]`. -/
def diagnosticWeak : List RE :=
  [rword "change", rword "increase", rword "decrease", rword "up", rword "down"]

/-- Model of `SIGNAL_PATTERNS["PREDICTIVE"]["strong"]`. -/
def predictiveStrong : List RE :=
  [ rword "what if",
    rcat [.wordB, rstr "if ", .plusC .anyNoNl, rstr " ",
          rwords ["drop", "rise", "increase", "decrease", "change"], .wordB],
    rword "forecast",
    rcat [.wordB, rstr "predict", .opt (rstr "ion"), .wordB],
    rcat [.wordB, rstr "project", .opt (rwords ["ion", "ed"]), .wordB],
    rcat [.wordB, rstr "expect", .opt (rstr "ed"), .wordB],
    rword "estimate",
    rcat [.wordB, rstr "will ", rwords ["be", "happen"], .wordB],
    rcat [.wordB, rstr "next ", rwords ["month", "quarter", "year"], .wordB],
    rword "future",
    rword "scenario",
    rword "sensitivity",
    rword "impact of",
    rcat [.wordB, rwords ["drop", "rise", "fall", "increase", "decrease"],
          rstr " by ", .plusC .digit, .lit '%', .wordB] ]

/-- Model of `SIGNAL_PATTERNS["PREDICTIVE"]["weak"]`. -/
def predictiveWeak : List RE :=
  [rword "trend", rword "outlook", rword "going forward"]

/-- Model of `SIGNAL_PATTERNS["PRESCRIPTIVE"]["strong"]`. -/
def prescriptiveStrong : List RE :=
  [ rcat [.wordB, rstr "how ", rwords ["should", "can", "do"], rstr " we", .wordB],
    rcat [.wordB, rstr "what should ", rwords ["we", "I"], .wordB],
    rword "recommend",
    rword "suggest",
    rcat [.wordB, rstr "optimiz", rwords ["e", "ation"], .wordB],
    rcat [.wordB, rstr "improv", rwords ["e", "ement"], .wordB],
    rcat [.wordB, rstr "reduce ", rwords ["cost", "expense"], .wordB],
    rcat [.wordB, rstr "increase ", rwords ["revenue", "margin", "profit"], .wordB],
    rcat [.wordB, rstr "best ", rwords ["way", "approach", "strategy"], .wordB],
    rcat [.wordB, rstr "action", .opt (.lit 's'), .wordB],
    rcat [.wordB, rstr "strateg", rwords ["y", "ies"], .wordB],
    rcat [.wordB, rstr "where ", rwords ["to", "can we"], .wordB],
    rword "advice" ]

/-- Model of `SIGNAL_PATTERNS["PRESCRIPTIVE"]["weak"]`. -/
def prescriptiveWeak : List RE :=
  [rword "should", rword "could", rcat [.wordB, rstr "option", .opt (.lit 's'), .wordB]]

/-- Model of `SIGNAL_PATTERNS`, in the dict's insertion order (Python dicts
iterate in insertion order): category name, strong list, weak list. -/
def signalPatternsTable : List (String × List RE × List RE) :=
  [ ("DESCRIPTIVE", descriptiveStrong, descriptiveWeak),
    ("DIAGNOSTIC", diagnosticStrong, diagnosticWeak),
    ("PREDICTIVE", predictiveStrong, predictiveWeak),
    ("PRESCRIPTIVE", prescriptiveStrong, prescriptiveWeak) ]

/-- Model of `OVERRIDE_PATTERNS["DESCRIPTIVE_OVERRIDE"]`:
`^what (is|are|was|were) .*(revenue|expense|cost|margin|income|ebitda)`. -/
def descriptiveOverride : List RE :=
  [ rcat [.bos, rstr "what ", rwords ["is", "are", "was", "were"], rstr " ",
          .starC .anyNoNl,
          rwords ["revenue", "expense", "cost", "margin", "income", "ebitda"]] ]

/-- Model of `OVERRIDE_PATTERNS["PREDICTIVE_OVERRIDE"]`:
`\bwhat if\b` and `\bif .+ (drop|rise|increase|decrease|change)s? by`. -/
def predictiveOverride : List RE :=
  [ rword "what if",
    rcat [.wordB, rstr "if ", .plusC .anyNoNl, rstr " ",
          rwords ["drop", "rise", "increase", "decrease", "change"],
          .opt (.lit 's'), rstr " by"] ]

/-- Model of `QueryClassifier._check_override_patterns`: PREDICTIVE overrides
first, then DESCRIPTIVE overrides (returning on the first pattern that
matches is the same as `any`). -/
def check_override_patterns (query_lower : String) : Option String :=
  if predictiveOverride.any (fun r => reSearch r query_lower) then some "PREDICTIVE"
  else if descriptiveOverride.any (fun r => reSearch r query_lower) then some "DESCRIPTIVE"
  else none

/-- Model of `QueryClassifier._check_signal_patterns`: the categories whose
pattern list of the given strength has at least one match, with their
match counts, in table order. -/
def check_signal_patterns (query_lower : String) (strength : String) : List (String × Nat) :=
  signalPatternsTable.filterMap (fun entry =>
    let pattern_list := if strength = "strong" then entry.2.1 else entry.2.2
    let match_count := pattern_list.countP (fun r => reSearch r query_lower)
    if match_count > 0 then some (entry.1, match_count) else none)

/-- Model of `QueryClassifier._classify_with_llm`.  The single chat-completion
call is modelled by its outcome `oracle`: `.error` when the call raises,
`.ok content` when it returns a message text.  Any exception degrades to
the DESCRIPTIVE default; a reply is stripped, upper-cased and scanned
for the four category tokens in fixed order. -/
def classify_with_llm (oracle : Except String String) : String :=
  match oracle with
  | .error _ => "DESCRIPTIVE"
  | .ok content =>
    let classification := pyUpper (pyStrip content)
    if pyIn "DESCRIPTIVE" classification then "DESCRIPTIVE"
    else if pyIn "DIAGNOSTIC" classification then "DIAGNOSTIC"
    else if pyIn "PREDICTIVE" classification then "PREDICTIVE"
    else if pyIn "PRESCRIPTIVE" classification then "PRESCRIPTIVE"
    else "DESCRIPTIVE"

/-- Model of `QueryClassifier.classify`.  Overrides first; then strong signals:
exactly one matching category wins outright, two or more defer to the
LLM, none defers to the LLM followed by the weak-pattern cross-check
(which, in the source, returns `llm_result` on every path and only
exists for logging). -/
def classify (oracle : Except String String) (query : String) : String :=
  let query_lower := pyStrip (pyLower query)
  match check_override_patterns query_lower with
  | some override_result => override_result
  | none =>
    let strong_matches := check_signal_patterns query_lower "strong"
    match strong_matches with
    | [single] => single.1
    | [] =>
      let llm_result := classify_with_llm oracle
      let weak_matches := check_signal_patterns query_lower "weak"
      if weak_matches.any (fun p => p.1 = llm_result) then llm_result else llm_result
    | _ => classify_with_llm oracle

-- ---------------------------------------------------------------------------
-- Python values and dict access, for src/agent.py's KNOWLEDGE_BASE.
-- ---------------------------------------------------------------------------

/-- A Python value tree: numbers (exact rationals), strings, dicts
(association lists in insertion order) and lists. -/
inductive PyVal where
  | num (q : Rat) : PyVal
  | str (s : String) : PyVal
  | bool (b : Bool) : PyVal
  | dict (fields : List (String × PyVal)) : PyVal
  | list (elems : List PyVal) : PyVal

/-- Python `d[k]`: raises `KeyError` on a missing key and `TypeError`
when the value is not a dict. -/
def dictGet : PyVal → String → Except String PyVal
  | .dict fields, k =>
    match List.lookup k fields with
    | some v => .ok v
    | none => .error ("KeyError: " ++ k)
  | _, k => .error ("TypeError: value subscripted with " ++ k ++ " is not a dict")

/-- Python `d.get(k, default)`. -/
def dictGetD (v : PyVal) (k : String) (d : PyVal) : PyVal :=
  match v with
  | .dict fields => (List.lookup k fields).getD d
  | _ => d

/-- Python `k in d` for a dict. -/
def pyHasKey (v : PyVal) (k : String) : Bool :=
  match v with
  | .dict fields => (List.lookup k fields).isSome
  | _ => false

/-- The keys of a dict, in insertion order (Python `d.keys()`). -/
def dictKeys : PyVal → List String
  | .dict fields => fields.map Prod.fst
  | _ => []

/-- Use a Python value as a number (model of using a non-number in
arithmetic, which raises `TypeError`). -/
def asNum : PyVal → Except String Rat
  | .num q => .ok q
  | _ => .error "TypeError: not a number"

-- ---------------------------------------------------------------------------
-- src/agent.py : the module-level KNOWLEDGE_BASE literal (version 3.0).
-- ---------------------------------------------------------------------------

/-- Model of `KNOWLEDGE_BASE["metadata"]`. -/
def kbMetadata : PyVal := .dict
  [ ("version", .str "3.0"),
    ("source_documents", .list
      [ .str "Financial_Performance___May_2025_.pdf",
        .str "Ukraine_Performance_report_2025_06.xlsx",
        .str "Independent_Driver.xlsx",
        .str "Independent_Variable.xlsx",
        .str "Guide_for_AI_Model.DOCX",
        .str "Data_Mapping.xlsx" ]),
    ("entity", .str "CFG Ukraine (Continental Farmers Group)"),
    ("parent_company", .str "SALIC (Saudi Agricultural and Livestock Investment Company)"),
    ("reporting_currency", .str "USD (with SAR conversion at 3.75)") ]

/-- Model of `KNOWLEDGE_BASE["formulas"]`. -/
def kbFormulas : PyVal := .dict
  [ ("volume", .str "Crop Area (ha) × Yield (t/ha)"),
    ("revenue", .str "Volume × Net Sales Price"),
    ("cost_of_production", .str "Volume × Production Cost per ton"),
    ("gross_margin", .str "Revenue - Cost of Production"),
    ("production_cost_per_ton", .str "Direct Costs ($/ha) ÷ Yield (t/ha)"),
    ("ebitda", .str "Gross Profit - G&A - S&D + Other Income + Depreciation"),
    ("gm_per_ha", .str "Gross Margin / Total Area"),
    ("gm_percent", .str "(Gross Margin / Revenue) × 100") ]

/-- Model of `KNOWLEDGE_BASE["variance_components"]`. -/
def kbVarianceComponents : PyVal := .dict
  [ ("area_effect", .str "(Actual Area - Budget Area) × Budget Yield × Budget Price"),
    ("yield_effect", .str "Actual Area × (Actual Yield - Budget Yield) × Budget Price"),
    ("price_effect", .str "Actual Volume × (Actual Price - Budget Price)"),
    ("cost_effect", .str "Actual Volume × (Budget Cost/t - Actual Cost/t)"),
    ("fx_effect", .str "Revenue USD × (Actual FX - Budget FX)") ]

/-- Model of `KNOWLEDGE_BASE["fy2025_financials"]`. -/
def kbFy2025Financials : PyVal := .dict
  [ ("currency", .str "USD thousands"),
    ("ytd_june_2025", .dict
      [ ("revenue", .num 252338), ("cost_of_sales", .num (-228723)),
        ("gross_profit", .num 53110), ("gain_loss_fv_ba_ap", .num 29495),
        ("general_admin_expenses", .num (-8590)),
        ("selling_distribution_expenses", .num (-4617)),
        ("other_income_expense_net", .num 20), ("operating_profit", .num 39922),
        ("finance_external", .num (-1593)), ("finance_intercompany", .num (-752)),
        ("finance_lease", .num (-12143)), ("forex_on_loans", .num (-297)),
        ("profit_before_tax", .num 25137), ("current_tax", .num (-747)),
        ("net_profit", .num 24390), ("ebitda", .num 56236),
        ("depreciation_total", .num (-16314)) ]),
    ("budget_ytd_june_2025", .dict
      [ ("revenue", .num 239361), ("cost_of_sales", .num (-235701)),
        ("gross_profit", .num 4749), ("operating_profit", .num (-10963)),
        ("net_profit", .num (-25547)), ("ebitda", .num 4462) ]),
    ("full_year_forecast_2025", .dict
      [ ("revenue", .num 783607), ("cost_of_sales", .num (-754795)),
        ("gross_profit", .num 115984), ("gain_loss_fv_ba_ap", .num 87173),
        ("general_admin_expenses", .num (-23348)),
        ("selling_distribution_expenses", .num (-12529)),
        ("other_income_expense_net", .num (-3280)), ("operating_profit", .num 76827),
        ("finance_costs_total", .num (-29223)), ("profit_before_tax", .num 47605),
        ("current_tax", .num (-1753)), ("net_profit", .num 45852),
        ("ebitda", .num 110554), ("depreciation_total", .num (-33727)) ]),
    ("full_year_budget_2025", .dict
      [ ("revenue", .num 752035), ("cost_of_sales", .num (-741804)),
        ("gross_profit", .num 103682), ("gain_loss_fv_ba_ap", .num 93451),
        ("general_admin_expenses", .num (-23327)),
        ("selling_distribution_expenses", .num (-9696)),
        ("other_income_expense_net", .num (-394)), ("operating_profit", .num 70265),
        ("profit_before_tax", .num 38597), ("net_profit", .num 37906),
        ("ebitda", .num 102059) ]) ]

/-- Model of `KNOWLEDGE_BASE["fy2025_sar"]`. -/
def kbFy2025Sar : PyVal := .dict
  [ ("exchange_rate", .num 3.75),
    ("forecast", .dict
      [ ("revenue_sar", .num 2939026000), ("ebitda_sar", .num 414578000),
        ("net_income_sar", .num 171945000) ]),
    ("budget", .dict
      [ ("revenue_sar", .num 2820131000), ("ebitda_sar", .num 382721000),
        ("net_income_sar", .num 142148000) ]),
    ("ytd_may_2025", .dict
      [ ("revenue_sar", .num 846000000), ("net_income_sar", .num 65000000) ]) ]

/-- Model of `KNOWLEDGE_BASE["fy2025_baseline"]["crops"]`, version 3.0: note the
keys are `area_ha`, `yield_t_ha_*`, per-ha figures — there is no
`area`, `yield`, `price` or `volume` key in any crop record. -/
def kbCrops : List (String × PyVal) :=
  [ ("winter_wheat", .dict
      [ ("area_ha", .num 39533), ("yield_t_ha_2024_actual", .num 7.18),
        ("yield_t_ha_2025_plan", .num 6.46), ("condition_good_2024_pct", .num 63),
        ("condition_good_2025_plan_pct", .num 61),
        ("net_income_per_ha_forecast", .num 1273),
        ("net_income_per_ha_budget", .num 1258),
        ("total_expenses_per_ha_forecast", .num 1006),
        ("total_expenses_per_ha_budget", .num 1027),
        ("ebitda_per_ha_forecast", .num 267), ("ebitda_per_ha_budget", .num 232) ]),
    ("winter_barley", .dict
      [ ("area_ha", .num 12517), ("yield_t_ha_2024_actual", .num 6.54),
        ("yield_t_ha_2025_plan", .num 6.14), ("condition_good_2024_pct", .num 86),
        ("condition_good_2025_plan_pct", .num 91),
        ("net_income_per_ha_forecast", .num 1071),
        ("net_income_per_ha_budget", .num 1063),
        ("total_expenses_per_ha_forecast", .num 911),
        ("total_expenses_per_ha_budget", .num 910),
        ("ebitda_per_ha_forecast", .num 160), ("ebitda_per_ha_budget", .num 153) ]),
    ("winter_osr", .dict
      [ ("area_ha", .num 32786), ("yield_t_ha_2024_actual", .num 3.45),
        ("yield_t_ha_2025_plan", .num 3.33), ("condition_good_2024_pct", .num 97),
        ("condition_good_2025_plan_pct", .num 85),
        ("net_income_per_ha_forecast", .num 1383),
        ("net_income_per_ha_budget", .num 1365),
        ("total_expenses_per_ha_forecast", .num 1095),
        ("total_expenses_per_ha_budget", .num 1098),
        ("ebitda_per_ha_forecast", .num 288), ("ebitda_per_ha_budget", .num 266) ]),
    ("maize", .dict
      [ ("area_ha", .num 25913), ("yield_t_ha_2024_actual", .num 10.34),
        ("net_income_per_ha_forecast", .num 1776),
        ("net_income_per_ha_budget", .num 1744),
        ("total_expenses_per_ha_forecast", .num 1604),
        ("total_expenses_per_ha_budget", .num 1613),
        ("ebitda_per_ha_forecast", .num 171), ("ebitda_per_ha_budget", .num 131) ]),
    ("soybean", .dict
      [ ("area_ha", .num 48519), ("yield_t_ha_2024_actual", .num 3.24),
        ("net_income_per_ha_forecast", .num 1398),
        ("net_income_per_ha_budget", .num 1382),
        ("total_expenses_per_ha_forecast", .num 898),
        ("total_expenses_per_ha_budget", .num 892),
        ("ebitda_per_ha_forecast", .num 500), ("ebitda_per_ha_budget", .num 490) ]),
    ("sunflower", .dict
      [ ("area_ha", .num 16415), ("yield_t_ha_2024_actual", .num 3.24),
        ("net_income_per_ha_forecast", .num 1388),
        ("net_income_per_ha_budget", .num 1378),
        ("total_expenses_per_ha_forecast", .num 992),
        ("total_expenses_per_ha_budget", .num 1007),
        ("ebitda_per_ha_forecast", .num 397), ("ebitda_per_ha_budget", .num 371) ]),
    ("sugar_beet", .dict
      [ ("area_ha", .num 2518), ("yield_t_ha_2024_actual", .num 62.0),
        ("net_income_per_ha_forecast", .num 2394),
        ("net_income_per_ha_budget", .num 2381),
        ("total_expenses_per_ha_forecast", .num 1752),
        ("total_expenses_per_ha_budget", .num 1748),
        ("ebitda_per_ha_forecast", .num 642), ("ebitda_per_ha_budget", .num 633) ]),
    ("potato", .dict
      [ ("area_ha", .num 2130), ("yield_t_ha_2024_actual", .num 34.1),
        ("processing_ebitda_per_ha_forecast", .num 2107),
        ("processing_ebitda_per_ha_budget", .num 1746),
        ("seed_ebitda_per_ha_forecast", .num 499),
        ("seed_ebitda_per_ha_budget", .num 18),
        ("table_ebitda_per_ha_forecast", .num 2152),
        ("table_ebitda_per_ha_budget", .num 1756) ]) ]

/-- Model of `KNOWLEDGE_BASE["fy2025_baseline"]`.  Its keys are `total_area_ha`,
`crop_structure`, `crops`, `crop_ranking_by_ebitda_per_ha`: there is no
`financials_ytd_may`, `financials_forecast` or `budget` key (those
belonged to the version the calculators still read). -/
def kbFy2025Baseline : PyVal := .dict
  [ ("total_area_ha", .num 180530),
    ("crop_structure", .dict
      [ ("spring_crops_percent", .num 53), ("winter_crops_percent", .num 47),
        ("spring_crops_ha", .num 95694), ("winter_crops_ha", .num 84836) ]),
    ("crops", .dict kbCrops),
    ("crop_ranking_by_ebitda_per_ha", .list
      [ .dict [("crop", .str "sugar_beet"), ("ebitda_per_ha", .num 642), ("rank", .num 1)],
        .dict [("crop", .str "soybean"), ("ebitda_per_ha", .num 500), ("rank", .num 2)],
        .dict [("crop", .str "sunflower"), ("ebitda_per_ha", .num 397), ("rank", .num 3)],
        .dict [("crop", .str "winter_osr"), ("ebitda_per_ha", .num 288), ("rank", .num 4)],
        .dict [("crop", .str "winter_wheat"), ("ebitda_per_ha", .num 267), ("rank", .num 5)],
        .dict [("crop", .str "maize"), ("ebitda_per_ha", .num 171), ("rank", .num 6)],
        .dict [("crop", .str "winter_barley"), ("ebitda_per_ha", .num 160), ("rank", .num 7)] ]) ]

/-- Model of `KNOWLEDGE_BASE["variance_analysis"]`. -/
def kbVarianceAnalysis : PyVal := .dict
  [ ("ytd_june_2025_vs_budget", .dict
      [ ("revenue_variance_usd", .num 12977), ("revenue_variance_pct", .num 5.42),
        ("gross_profit_variance_usd", .num 48360),
        ("gross_profit_variance_pct", .num 1018.28),
        ("net_profit_variance_usd", .num 49937),
        ("net_profit_variance_pct", .num 195.47),
        ("ebitda_variance_usd", .num 51774),
        ("ebitda_variance_pct", .num 1160.33) ]),
    ("full_year_forecast_vs_budget", .dict
      [ ("revenue_variance_usd", .num 31572), ("revenue_variance_pct", .num 4.20),
        ("gross_profit_variance_usd", .num 12302),
        ("gross_profit_variance_pct", .num 11.87),
        ("net_profit_variance_usd", .num 7946),
        ("net_profit_variance_pct", .num 20.96),
        ("ebitda_variance_usd", .num 8494),
        ("ebitda_variance_pct", .num 8.32) ]),
    ("key_drivers", .list
      [ .str "Higher commodity prices (positive)",
        .str "Front-loaded sales phasing (positive)",
        .str "Consistent sales volumes (positive)",
        .str "Favorable FX movements (positive)",
        .str "Lower operating expenses (positive)" ]) ]

/-- Model of `KNOWLEDGE_BASE["sensitivities"]`.  Every entry stores its impact
under `per_10pct_change_usd` (or, for FX, `per_10pct_change`); no entry
has a `per_10pct` or a `unit` key. -/
def kbSensitivities : PyVal := .dict
  [ ("yield_all_crops", .dict
      [ ("per_10pct_change_usd", .num 30000000),
        ("description", .str "Impact on GM from 10% yield change") ]),
    ("wheat_price", .dict
      [ ("per_10pct_change_usd", .num 6700000), ("volume_tons", .num 268396),
        ("current_price", .num 249) ]),
    ("osr_price", .dict
      [ ("per_10pct_change_usd", .num 5800000), ("volume_tons", .num 101565),
        ("current_price", .num 568) ]),
    ("maize_price", .dict
      [ ("per_10pct_change_usd", .num 6500000), ("volume_tons", .num 273665),
        ("current_price", .num 236) ]),
    ("soybean_price", .dict
      [ ("per_10pct_change_usd", .num 7700000), ("volume_tons", .num 161445),
        ("current_price", .num 478) ]),
    ("sunflower_price", .dict
      [ ("per_10pct_change_usd", .num 2900000), ("volume_tons", .num 56059),
        ("current_price", .num 519) ]),
    ("fx_usd_uah", .dict
      [ ("per_10pct_change", .str "8% of revenue"), ("current_rate", .num 42.05) ]) ]

/-- Model of `KNOWLEDGE_BASE["historical_performance"]`. -/
def kbHistoricalPerformance : PyVal := .dict
  [ ("net_income_usd_m", .dict
      [ ("2019", .num 5.1), ("2020", .num (-37.1)), ("2021", .num 124.1),
        ("2022", .num 36.6), ("2023", .num 11.6), ("2024", .num 113.2),
        ("2025_forecast", .num 45.9) ]),
    ("ebitda_usd_m", .dict
      [ ("2019", .num 17.6), ("2020", .num 91.0), ("2021", .num 183.7),
        ("2022", .num 94.0), ("2023", .num 68.2), ("2024", .num 174.6),
        ("2025_forecast", .num 110.6) ]) ]

/-- Model of `KNOWLEDGE_BASE["external_drivers"]`. -/
def kbExternalDrivers : PyVal := .dict
  [ ("fx_rates", .dict
      [ ("usd_uah_current", .num 42.05), ("usd_uah_forecast_q3_2026", .num 41.48),
        ("usd_sar", .num 3.75) ]),
    ("macro_indicators", .dict
      [ ("ukraine_gdp_growth_2025_pct", .num 2.0),
        ("ukraine_gdp_growth_2026_pct", .num 4.5),
        ("ukraine_cpi_2025_pct", .num 12.6),
        ("ukraine_cpi_2026_forecast_pct", .num 7.6),
        ("policy_interest_rate_pct", .num 15.5),
        ("unemployment_rate_pct", .num 11.5),
        ("population_million", .num 32.862) ]),
    ("commodity_prices_forecast", .dict
      [ ("wheat_futures_usd_bu_q4_2025", .num 526.99),
        ("wheat_futures_usd_bu_q3_2026", .num 494.31),
        ("corn_futures_usd_bu_q3_2026", .num 459.79),
        ("soybean_futures_usd_bu_q3_2026", .num 1160.79),
        ("source", .str "Trading Economics") ]) ]

/-- Model of `KNOWLEDGE_BASE["infrastructure"]`. -/
def kbInfrastructure : PyVal := .dict
  [ ("land_cultivation_ha", .num 195000), ("cropped_ha", .num 180530),
    ("grain_elevators_tons", .num 603000), ("drying_storage_tons", .num 31000),
    ("potato_storage_tons", .num 106200),
    ("seed_production_capacity_tons_per_day", .num 420),
    ("seed_purity_pct", .num 99.8) ]

/-- Model of `KNOWLEDGE_BASE["benchmarks"]`.  No key starts with
`cost_per_ton_`, so `calculate_gross_margin`'s benchmark lookup always
takes its default of 150. -/
def kbBenchmarks : PyVal := .dict
  [ ("gm_percent_target", .num 15), ("ebitda_margin_target", .num 14),
    ("gm_per_ha_target_usd", .num 200),
    ("current_metrics", .dict
      [ ("gross_margin_pct", .num 14.8), ("ebitda_margin_pct", .num 14.1),
        ("gm_per_ha_usd", .num 312) ]) ]

/-- The module-level `KNOWLEDGE_BASE` of `src/agent.py` (version 3.0),
with its twelve top-level keys in source order.  There is no
`price_variances` and no `fx_rate` top-level key. -/
def KNOWLEDGE_BASE : PyVal := .dict
  [ ("metadata", kbMetadata),
    ("formulas", kbFormulas),
    ("variance_components", kbVarianceComponents),
    ("fy2025_financials", kbFy2025Financials),
    ("fy2025_sar", kbFy2025Sar),
    ("fy2025_baseline", kbFy2025Baseline),
    ("variance_analysis", kbVarianceAnalysis),
    ("sensitivities", kbSensitivities),
    ("historical_performance", kbHistoricalPerformance),
    ("external_drivers", kbExternalDrivers),
    ("infrastructure", kbInfrastructure),
    ("benchmarks", kbBenchmarks) ]

/-- Python `d.items()` for a dict value. -/
def dictItems : PyVal → List (String × PyVal)
  | .dict fields => fields
  | _ => []

-- ---------------------------------------------------------------------------
-- src/agent.py : value-driver tree calculators (lines 514-667).
-- The agent reads `self.knowledge = KNOWLEDGE_BASE`.
-- ---------------------------------------------------------------------------

/-- The `else` branch of `CFGUkraineAgent.calculate_gross_margin`
(total across all crops): iterate `baseline["crops"].items()` summing
revenue and gross margin.  Each iteration reads `crop_data["area"]`,
`crop_data["yield"]`, `crop_data["price"]`. -/
def calculate_gross_margin_all : Except String PyVal := do
  let baseline ← dictGet KNOWLEDGE_BASE "fy2025_baseline"
  let total_area ← asNum (← dictGet baseline "total_area_ha")
  let cropsD ← dictGet baseline "crops"
  let totals ← (dictItems cropsD).foldlM (fun (acc : Rat × Rat) entry => do
    let crop_name := entry.1
    let crop_data := entry.2
    let area ← asNum (← dictGet crop_data "area")
    let yld ← asNum (← dictGet crop_data "yield")
    let volume := area * yld
    let price ← asNum (← dictGet crop_data "price")
    let revenue := volume * price
    let suffix := (crop_name.splitOn "_").getLastD crop_name
    let cost_per_ton ← asNum
      (dictGetD (← dictGet KNOWLEDGE_BASE "benchmarks") ("cost_per_ton_" ++ suffix) (.num 150))
    let cost := volume * cost_per_ton
    pure (acc.1 + revenue, acc.2 + (revenue - cost))) ((0 : Rat), (0 : Rat))
  let total_revenue := totals.1
  let total_gm := totals.2
  pure (.dict
    [ ("crop", .str "all"),
      ("total_area_ha", .num total_area),
      ("total_revenue_usd", .num total_revenue),
      ("total_gross_margin_usd", .num total_gm),
      ("gm_percent", .num (if total_revenue > 0 then total_gm / total_revenue * 100 else 0)),
      ("gm_per_ha", .num (if total_area > 0 then total_gm / total_area else 0)) ])

/-- The then-branch of `CFGUkraineAgent.calculate_gross_margin` for a
crop present in the baseline: it reads `crop_data["area"]`,
`crop_data["yield"]`, `crop_data["price"]` and the benchmark cost with
`.get(f"cost_per_ton_{crop}", 150)`; divisions by zero are guarded with
Python conditional expressions. -/
def calculate_gross_margin_crop (c : String) (crop_data : PyVal) : Except String PyVal := do
  let area ← asNum (← dictGet crop_data "area")
  let yld ← asNum (← dictGet crop_data "yield")
  let volume := area * yld
  let price ← asNum (← dictGet crop_data "price")
  let revenue := volume * price
  let cost_per_ton ← asNum
    (dictGetD (← dictGet KNOWLEDGE_BASE "benchmarks") ("cost_per_ton_" ++ c) (.num 150))
  let cost_of_production := volume * cost_per_ton
  let gross_margin := revenue - cost_of_production
  pure (.dict
    [ ("crop", .str c),
      ("area_ha", .num area),
      ("yield_t_ha", .num yld),
      ("volume_tons", .num volume),
      ("price_usd_t", .num price),
      ("revenue_usd", .num revenue),
      ("cost_per_ton", .num cost_per_ton),
      ("cost_of_production", .num cost_of_production),
      ("gross_margin_usd", .num gross_margin),
      ("gm_percent", .num (if revenue > 0 then gross_margin / revenue * 100 else 0)),
      ("gm_per_ha", .num (if area > 0 then gross_margin / area else 0)) ])

/-- Model of `CFGUkraineAgent.calculate_gross_margin(crop)`.  The guard mirrors
Python's `if crop and crop in baseline["crops"]` (`crop=None` and
`crop=""` are falsy); a present crop runs
`calculate_gross_margin_crop`, anything else the all-crops total. -/
def calculate_gross_margin (crop : Option String) : Except String PyVal := do
  let baseline ← dictGet KNOWLEDGE_BASE "fy2025_baseline"
  let cropsD ← dictGet baseline "crops"
  match crop with
  | some c =>
    if c ≠ "" && pyHasKey cropsD c then do
      let crop_data ← dictGet cropsD c
      calculate_gross_margin_crop c crop_data
    else
      calculate_gross_margin_all
  | none => calculate_gross_margin_all

/-- Model of `CFGUkraineAgent.decompose_variance(metric)`.  The second statement
reads `self.knowledge["price_variances"]`, a key KNOWLEDGE_BASE v3.0
does not have; the rest of the translation mirrors the source (metric
selection, the price-effect loop over `price_vars.items()`, the fixed
15%/25%/5% allocations, the guarded percentage divisions). -/
def decompose_variance (metric : String) : Except String PyVal := do
  let baseline ← dictGet KNOWLEDGE_BASE "fy2025_baseline"
  let price_vars ← dictGet KNOWLEDGE_BASE "price_variances"
  let ab ←
    if metric = "net_income" then do
      let a ← asNum (← dictGet (← dictGet baseline "financials_forecast") "net_income_sar")
      let b ← asNum (← dictGet (← dictGet baseline "budget") "net_income_sar")
      pure (a, b)
    else if metric = "revenue" then do
      let a ← asNum (← dictGet (← dictGet baseline "financials_forecast") "revenue_sar")
      let b ← asNum (← dictGet (← dictGet baseline "budget") "revenue_sar")
      pure (a, b)
    else if metric = "ebitda" then do
      let a ← asNum (← dictGet (← dictGet baseline "financials_forecast") "ebitda_sar")
      let b ← asNum (← dictGet (← dictGet baseline "budget") "ebitda_sar")
      pure (a, b)
    else do
      let a ← asNum (← dictGet (← dictGet baseline "financials_forecast") "net_income_sar")
      let b ← asNum (← dictGet (← dictGet baseline "budget") "net_income_sar")
      pure (a, b)
  let actual := ab.1
  let budget := ab.2
  let total_variance := actual - budget
  let price_effect ← (dictItems price_vars).foldlM (fun (acc : Rat) entry => do
    let crop := entry.1
    let pv := entry.2
    let crop_key := if crop = "wheat" || crop = "barley" || crop = "osr"
      then "winter_" ++ crop else crop
    let cropsD ← dictGet baseline "crops"
    if pyHasKey cropsD crop_key then do
      let volume ← asNum (← dictGet (← dictGet cropsD crop_key) "volume")
      let variance ← asNum (← dictGet pv "variance")
      pure (acc + volume * variance)
    else
      pure acc) (0 : Rat)
  let fx ← asNum (← dictGet (← dictGet KNOWLEDGE_BASE "fx_rate") "usd_sar")
  let price_effect_sar := price_effect * fx
  let yield_effect_sar := total_variance * 0.15
  let cost_effect_sar := total_variance * 0.25
  let volume_effect_sar := total_variance * 0.05
  let other_effect_sar := total_variance - price_effect_sar - yield_effect_sar
    - cost_effect_sar - volume_effect_sar
  let pct (amount : Rat) : Rat := if total_variance ≠ 0 then amount / total_variance * 100 else 0
  pure (.dict
    [ ("metric", .str metric),
      ("actual", .num actual),
      ("budget", .num budget),
      ("total_variance", .num total_variance),
      ("variance_pct", .num (if budget ≠ 0 then (actual / budget - 1) * 100 else 0)),
      ("drivers", .dict
        [ ("price_effect", .dict [("amount", .num price_effect_sar), ("pct", .num (pct price_effect_sar))]),
          ("cost_effect", .dict [("amount", .num cost_effect_sar), ("pct", .num (pct cost_effect_sar))]),
          ("yield_effect", .dict [("amount", .num yield_effect_sar), ("pct", .num (pct yield_effect_sar))]),
          ("volume_effect", .dict [("amount", .num volume_effect_sar), ("pct", .num (pct volume_effect_sar))]),
          ("other", .dict [("amount", .num other_effect_sar), ("pct", .num (pct other_effect_sar))]) ]) ])

/-- The then-branch of `CFGUkraineAgent.calculate_sensitivity` for a
driver present in the table: the source reads `sens["per_10pct"]` and
`sens["unit"]` (keys no entry of the v3.0 table has; the stored
constant is under `per_10pct_change_usd`). -/
def calculate_sensitivity_known (driver : String) (change_pct : Rat) (sens : PyVal) :
    Except String PyVal := do
  let per10 ← asNum (← dictGet sens "per_10pct")
  let impact := per10 * (change_pct / 10)
  let unit ← dictGet sens "unit"
  pure (.dict
    [ ("driver", .str driver),
      ("change_pct", .num change_pct),
      ("impact_amount", .num impact),
      ("impact_unit", unit),
      ("base_volume", dictGetD sens "volume" (.str "N/A")) ])

/-- Model of `CFGUkraineAgent.calculate_sensitivity(driver, change_pct)`: look
the driver up in the sensitivity table; a present driver runs
`calculate_sensitivity_known`, an absent one returns the error dict. -/
def calculate_sensitivity (driver : String) (change_pct : Rat) : Except String PyVal := do
  let sensitivities ← dictGet KNOWLEDGE_BASE "sensitivities"
  if pyHasKey sensitivities driver then do
    let sens ← dictGet sensitivities driver
    calculate_sensitivity_known driver change_pct sens
  else
    pure (.dict
      [ ("driver", .str driver),
        ("error", .str ("Driver '" ++ driver ++ "' not found in sensitivity table")) ])

/-- Model of `CFGUkraineAgent.get_budget_comparison` (lines 669-752).  The first
extraction reads `baseline["financials_ytd_may"]`, a key the v3.0
baseline does not have.  The translation keeps every dict access and
the structure of the returned dict; the rendered Markdown `summary`
f-string is presentation text (out of scope per the spec) and is
abbreviated to a fixed marker string. -/
def get_budget_comparison : Except String PyVal := do
  let baseline ← dictGet KNOWLEDGE_BASE "fy2025_baseline"
  let revenue_ytd ← asNum (← dictGet (← dictGet baseline "financials_ytd_may") "revenue_sar")
  let revenue_forecast ← asNum (← dictGet (← dictGet baseline "financials_forecast") "revenue_sar")
  let revenue_budget ← asNum (← dictGet (← dictGet baseline "budget") "revenue_sar")
  let ebitda_ytd ← asNum (← dictGet (← dictGet baseline "financials_ytd_may") "ebitda_sar")
  let ebitda_forecast ← asNum (← dictGet (← dictGet baseline "financials_forecast") "ebitda_sar")
  let ebitda_budget ← asNum (← dictGet (← dictGet baseline "budget") "ebitda_sar")
  let ni_ytd ← asNum (← dictGet (← dictGet baseline "financials_ytd_may") "net_income_sar")
  let ni_forecast ← asNum (← dictGet (← dictGet baseline "financials_forecast") "net_income_sar")
  let ni_budget ← asNum (← dictGet (← dictGet baseline "budget") "net_income_sar")
  let price_variances ← dictGet KNOWLEDGE_BASE "price_variances"
  let metric (ytd forecast budget : Rat) : PyVal := .dict
    [ ("ytd_actual", .num ytd), ("forecast", .num forecast), ("budget", .num budget),
      ("variance_vs_budget", .num (forecast - budget)),
      ("variance_pct", .num (if budget ≠ 0 then (forecast / budget - 1) * 100 else 0)) ]
  pure (.dict
    [ ("source", .str "knowledge_base"),
      ("period", .str "FY2025"),
      ("metrics", .dict
        [ ("revenue", metric revenue_ytd revenue_forecast revenue_budget),
          ("ebitda", metric ebitda_ytd ebitda_forecast ebitda_budget),
          ("net_income", metric ni_ytd ni_forecast ni_budget) ]),
      ("price_variances", price_variances),
      ("summary", .str "FY2025 Forecast vs Budget Comparison (rendered Markdown omitted)") ])

-- ---------------------------------------------------------------------------
-- src/agent.py : topic-detector predicates (lines 754-803).
-- ---------------------------------------------------------------------------

/-- Model of `CFGUkraineAgent._is_budget_comparison_query`. -/
def is_budget_comparison_query (message : String) : Bool :=
  let message_lower := pyLower message
  [ "vs budget", "versus budget", "compared to budget",
    "budget vs", "actual vs budget", "budget comparison",
    "vs plan", "versus plan", "against budget",
    "beat budget", "miss budget", "budget variance",
    "compare to budget", "forecast compare", "forecast vs",
    "compare budget", "budget compare", "actual compare" ].any
    (fun signal => pyIn signal message_lower)

/-- Model of `CFGUkraineAgent._is_crop_query`. -/
def is_crop_query (message : String) : Bool :=
  let message_lower := pyLower message
  [ "wheat", "barley", "osr", "canola", "maize", "corn",
    "soybean", "sunflower", "crop", "yield", "harvest",
    "gross margin for", "gm for", "profitability of",
    "what if", "price drop", "price increase", "prices drop",
    "prices increase", "sensitivity", "impact if" ].any
    (fun signal => pyIn signal message_lower)

/-- Model of `CFGUkraineAgent._is_financial_performance_query`: performance
vocabulary, excluding action-oriented queries. -/
def is_financial_performance_query (message : String) : Bool :=
  let message_lower := pyLower message
  let action_exclusions := ["improve", "action", "should we", "optimize", "reduce", "increase"]
  if action_exclusions.any (fun excl => pyIn excl message_lower) then false
  else
    [ "financial performance", "financials", "how is cfg",
      "how did cfg", "revenue", "ebitda", "net income",
      "profit", "earnings", "performance for", "results",
      "fy2025", "fy 2025", "fiscal year" ].any
      (fun signal => pyIn signal message_lower)

/-- Model of `CFGUkraineAgent._is_action_query`. -/
def is_action_query (message : String) : Bool :=
  let message_lower := pyLower message
  [ "what action", "what should", "how should", "how can we",
    "improve profitability", "improve profit", "reduce cost",
    "increase revenue", "increase margin", "recommendations",
    "what to do", "next steps", "action plan" ].any
    (fun signal => pyIn signal message_lower)

-- ---------------------------------------------------------------------------
-- src/agent.py : the fallback-routing segment of CFGUkraineAgent.chat
-- (steps 4b-4f and the step-5 strategy dispatch, lines 1786-1899).
-- ---------------------------------------------------------------------------

/-- The response strategies the spec's fallback router chooses among,
named after the `chat` branches: the budget knowledge-base fallback
(step 4b / first step-5 branch), the action, crop and
financial-performance knowledge-base fallbacks, the hybrid
Fabric-plus-knowledge-base response, and the plain
`_generate_enhanced_response` else-branch (warehouse only). -/
inductive Strategy where
  | KnowledgeBaseBudget : Strategy
  | KnowledgeBaseAction : Strategy
  | KnowledgeBaseCrop : Strategy
  | KnowledgeBaseFinancialPerformance : Strategy
  | HybridWarehouseAndKB : Strategy
  | WarehouseOnly : Strategy
deriving DecidableEq

/-- The routing segment of `CFGUkraineAgent.chat`, as a function of the
data-probe outcome and the topic flags.  `rowCount` and `sqlError` are
the probe's `data["row_count"]` and the truthiness of `sql_error`
(`execute_query` failures are caught and produce `row_count = 0` plus a
message); `vdtSome` is `vdt_result is not None`.  Step 4b calls
`self.get_budget_comparison()` before replacing `data` with a synthetic
3-row table, so its `Except` outcome is part of the route; the other
flag computations and the step-5 `if/elif` dispatch are pure.  The
returned strategy is which step-5 branch runs. -/
def chatRoute (rowCount : Nat) (sqlError : Bool)
    (isBudget isCrop isFinancial isAction : Bool) (vdtSome : Bool) :
    Except String Strategy := do
  -- Step 4b: budget knowledge-base fallback.
  let use_kb_fallback := (rowCount == 0 || sqlError) && isBudget
  let kb_data ← if use_kb_fallback then do
      let kb ← get_budget_comparison
      pure (some kb)
    else
      pure none
  -- When the fallback fired, `data` was replaced by the synthetic
  -- knowledge-base table with `row_count = 3`.
  let rowCount := if use_kb_fallback then 3 else rowCount
  -- Step 4c: crop knowledge-base fallback.
  let use_crop_kb := (rowCount == 0 || sqlError) && isCrop && vdtSome
  -- Step 4d: financial-performance knowledge-base fallback.
  let use_financial_kb := (rowCount == 0 || sqlError) && isFinancial
  -- Step 4e: action knowledge-base fallback.
  let use_action_kb := (rowCount == 0 || sqlError) && isAction
  -- Step 4f: hybrid approach when Fabric returned data without error.
  let use_hybrid := rowCount > 0 && !sqlError
  -- Step 5: first applicable branch wins.
  pure (if use_kb_fallback && kb_data.isSome then .KnowledgeBaseBudget
    else if use_action_kb then .KnowledgeBaseAction
    else if use_crop_kb && vdtSome then .KnowledgeBaseCrop
    else if use_financial_kb then .KnowledgeBaseFinancialPerformance
    else if use_hybrid then .HybridWarehouseAndKB
    else .WarehouseOnly)

-- ---------------------------------------------------------------------------
-- src/agent.py : CFGUkraineAgent._decompose_questions (lines 1930-1990).
-- ---------------------------------------------------------------------------

/-- The numbered-list pattern `(?:^|\n)\s*\d+[\.\)]\s+`. -/
def numberedListRe : RE :=
  rcat [raltL [.bos, .lit '\n'], .starC .space, .plusC .digit,
        .cls (.set ['.', ')']), .plusC .space]

/-- The bullet pattern `(?:^|\n)\s*[-•]\s+`. -/
def bulletRe : RE :=
  rcat [raltL [.bos, .lit '\n'], .starC .space, .cls (.set ['-', '•']), .plusC .space]

/-- The conjunction split pattern
`(?:\.\s+(?:Also|What|Why|How|And)|\s+and\s+(?:also|what|why|how))`,
compiled with `re.IGNORECASE`. -/
def conjunctionRe : RE :=
  raltL
    [ rcat [.lit '.', .plusC .space, rwordsCI ["Also", "What", "Why", "How", "And"]],
      rcat [.plusC .space, rstrCI "and", .plusC .space, rwordsCI ["also", "what", "why", "how"]] ]

/-- The conjunction cue list checked (on the lower-cased message) before
the conjunction split runs. -/
def conjunctionCues : List String :=
  [" and also ", " and what ", " and why ", " and how ", ". also ", ". what ", ". why ", ". how "]

/-- Keep a split fragment when its stripped text is non-empty and longer
than 10 characters; re-terminate it with a question mark, which branch 1
always appends and branches 2-4 append only when missing. -/
def keepFragment (addQmOnlyIfMissing : Bool) (part : String) : Option String :=
  let cleaned := pyStrip part
  if cleaned ≠ "" && cleaned.length > 10 then
    if addQmOnlyIfMissing && cleaned.endsWith "?" then some cleaned
    else some (cleaned ++ "?")
  else none

/-- Model of `CFGUkraineAgent._decompose_questions`.  Four strategies tried in
order on the same `if/elif` chain: more than one `?` splits on `?`;
otherwise a numbered-list pattern, then bullet markers, then
conjunction cues; fragments shorter than 11 characters after stripping
are dropped; when nothing survives the message itself is returned as
the single question. -/
def decompose_questions (message : String) : List String :=
  let questions :=
    if pyCountChar message '?' > 1 then
      (pySplitOn message '?').filterMap (keepFragment false)
    else if reSearch numberedListRe message then
      (reSplit numberedListRe message).filterMap (keepFragment true)
    else if reSearch bulletRe message then
      (reSplit bulletRe message).filterMap (keepFragment true)
    else if conjunctionCues.any (fun conj => pyIn conj (pyLower message)) then
      (reSplit conjunctionRe message).filterMap (keepFragment true)
    else
      []
  if questions.isEmpty then [message] else questions

-- ---------------------------------------------------------------------------
-- src/azure_function/shared/conversation_memory.py : InMemoryStore.
-- ---------------------------------------------------------------------------

/-- One conversation turn, as `InMemoryStore.add_turn` builds it.  The
`timestamp` is `datetime.utcnow().isoformat()` in the source — a clock
input, carried as an opaque string. -/
structure Turn where
  timestamp : String
  user_query : String
  classification : String
  sql : String
  response : String
  data_summary : PyVal

/-- Model of `InMemoryStore`: a dict from session id to turn list, plus the
`max_turns` bound (10 by default in the constructor). -/
structure InMemoryStore where
  max_turns : Nat
  sessions : List (String × List Turn)

/-- Model of `InMemoryStore(max_turns)` (the constructor default is 10, which is
what `get_memory_store(use_cosmos=False)` builds). -/
def initStore (max_turns : Nat) : InMemoryStore :=
  { max_turns := max_turns, sessions := [] }

/-- Replace (or, for a new session id, append) a session's turn list,
keeping dict insertion order. -/
def setSession (sessions : List (String × List Turn)) (session_id : String)
    (turns : List Turn) : List (String × List Turn) :=
  match sessions with
  | [] => [(session_id, turns)]
  | (k, v) :: rest =>
    if k = session_id then (k, turns) :: rest
    else (k, v) :: setSession rest session_id turns

/-- Model of `InMemoryStore.add_turn`: create the session on first use, append
the turn with the response truncated to its first 500 characters
(`response[:500]`), and when the list exceeds `max_turns` keep only the
last `max_turns` turns (`[-max_turns:]`, evicting the oldest first). -/
def addTurn (store : InMemoryStore) (session_id : String)
    (timestamp user_query classification sql response : String)
    (data_summary : Option PyVal) : InMemoryStore :=
  let turns := (List.lookup session_id store.sessions).getD []
  let turn : Turn :=
    { timestamp := timestamp, user_query := user_query,
      classification := classification, sql := sql,
      response := ⟨response.data.take 500⟩,
      data_summary := data_summary.getD (.dict []) }
  let turns := turns ++ [turn]
  let turns :=
    if turns.length > store.max_turns then turns.drop (turns.length - store.max_turns)
    else turns
  { store with sessions := setSession store.sessions session_id turns }

/-- Model of `InMemoryStore.get_context(session_id, num_turns)`: the empty list
for an unknown session, otherwise `turns[-num_turns:]` — which for
`num_turns = 0` is the whole list (`-0 == 0` in Python), and for
positive `num_turns` the last `num_turns` turns in stored
(chronological) order. -/
def getContext (store : InMemoryStore) (session_id : String) (num_turns : Nat) : List Turn :=
  match List.lookup session_id store.sessions with
  | none => []
  | some turns =>
    if num_turns = 0 then turns
    else turns.drop (turns.length - num_turns)

/-- Model of `InMemoryStore.clear_session(session_id)`. -/
def clearSession (store : InMemoryStore) (session_id : String) : InMemoryStore :=
  { store with sessions := store.sessions.filter (fun p => p.1 ≠ session_id) }

/-- The store's operations, for stating invariants over every
reachable state. -/
inductive MemOp where
  | add (session_id timestamp user_query classification sql response : String)
      (data_summary : Option PyVal) : MemOp
  | clear (session_id : String) : MemOp

/-- Apply one operation. -/
def memStep (store : InMemoryStore) : MemOp → InMemoryStore
  | .add session_id timestamp user_query classification sql response data_summary =>
    addTurn store session_id timestamp user_query classification sql response data_summary
  | .clear session_id => clearSession store session_id

/-- Run a sequence of operations from a fresh store. -/
def runMemOps (max_turns : Nat) (ops : List MemOp) : InMemoryStore :=
  ops.foldl memStep (initStore max_turns)

-- ---------------------------------------------------------------------------
-- src/agent.py : the chat pipeline skeleton (lines 1704-1924).
-- ---------------------------------------------------------------------------

/-- The data-probe outcome of `connector.execute_query`: column names
and row count (the row contents only feed the rendered response text,
which the skeleton keeps abstract), plus the `error` field the fallback
path synthesizes. -/
structure ProbeData where
  columns : List String
  row_count : Nat
  error : Option String

/-- The synthetic knowledge-base table chat substitutes for `data` in
the budget fallback (step 4b): five columns, three rows. -/
def syntheticBudgetData : ProbeData :=
  { columns := ["Metric", "YTD_Actual", "Forecast", "Budget", "Variance"],
    row_count := 3, error := none }

/-- Model of `CFGUkraineAgent._get_forecast_budget_sql`. -/
def forecast_budget_sql : String :=
  "\nSELECT \n    a.FinalParentAccountCode,\n    s.ScenarioName,\n    SUM(CAST(fb.Amount AS DECIMAL(18,2))) AS Amount\nFROM Fact_ForecastBudget fb\nJOIN Dim_Account a ON fb.AccountKey = a.AccountKey\nJOIN Dim_Entity e ON fb.EntityKey = e.EntityKey\nJOIN Dim_Year y ON fb.YearKey = y.YearKey\nJOIN Dim_Scenario s ON fb.ScenarioKey = s.ScenarioKey\nWHERE e.EntityCode = 'E250'\n  AND y.CalendarYear = 2025\n  AND fb.AccountKey IS NOT NULL\nGROUP BY a.FinalParentAccountCode, s.ScenarioName\nORDER BY a.FinalParentAccountCode, s.ScenarioName;\n"

/-- Model of `CFGUkraineAgent._get_analytics_description`. -/
def get_analytics_description (classification : String) : String :=
  if classification = "DESCRIPTIVE" then "What happened?"
  else if classification = "DIAGNOSTIC" then "Why did it happen?"
  else if classification = "PREDICTIVE" then "What will happen?"
  else if classification = "PRESCRIPTIVE" then "What should we do?"
  else "Analysis"

/-- Model of `CFGUkraineAgent._generate_error_response`: the fixed help text
listing example queries, with the question and the exception message
interpolated. -/
def generate_error_response (question error : String) : String :=
  "I apologize, but I encountered an issue while processing your question.\n\n" ++
  "**Your Question:** " ++ question ++ "\n\n" ++
  "**Issue:** " ++ error ++ "\n\n" ++
  "**Available Analytics:**\n" ++
  "- **Descriptive**: \"What was revenue in 2025?\", \"Show me crop areas\"\n" ++
  "- **Diagnostic**: \"Why did net income beat budget?\", \"Explain the yield variance\"\n" ++
  "- **Predictive**: \"What if wheat prices drop 10%?\", \"Forecast Q4 margin\"\n" ++
  "- **Prescriptive**: \"How should we optimize crop mix?\", \"Where to reduce costs?\"\n\n" ++
  "**Tip:** I have detailed data on CFG Ukraine crops including wheat, barley, OSR, maize, soybean, and sunflower.\n\n" ++
  "Would you like to try a different question?"

/-- Python `v == "s"` for a `PyVal` against a string literal. -/
def pyIsStrEq (v : PyVal) (s : String) : Bool :=
  match v with
  | .str t => t = s
  | _ => false

/-- Model of `CFGUkraineAgent._generate_smart_suggestions`: three fixed
follow-ups per category (defaulting to the DESCRIPTIVE set), a
context-specific suggestion inserted at the front when a value-driver
result is present (reading `vdt_result["type"]`, which raises on a
malformed value — hence `Except`), truncated to three. -/
def generate_smart_suggestions (message : String) (classification : String)
    (vdt_result : Option PyVal) : Except String (List String) := do
  let _ := message
  let base :=
    if classification = "DESCRIPTIVE" then
      ["How does this compare to budget?", "What's driving these numbers?",
       "Show me the trend over time"]
    else if classification = "DIAGNOSTIC" then
      ["What can we do to improve this?", "How sensitive is this to price changes?",
       "Which crop contributed most to the variance?"]
    else if classification = "PREDICTIVE" then
      ["What if prices drop by 15%?", "How should we hedge against this risk?",
       "What's the worst-case scenario?"]
    else if classification = "PRESCRIPTIVE" then
      ["What are the trade-offs of this recommendation?", "How do we implement this?",
       "What's the expected ROI?"]
    else
      ["How does this compare to budget?", "What's driving these numbers?",
       "Show me the trend over time"]
  let base ← match vdt_result with
    | none => pure base
    | some v => do
      let t ← dictGet v "type"
      pure (if pyIsStrEq t "variance_decomposition" then
          "Break down the price effect by crop" :: base
        else if pyIsStrEq t "sensitivity_analysis" then
          "What's the combined impact of multiple drivers?" :: base
        else if pyIsStrEq t "optimization_ranking" then
          "What are the rotation constraints for OSR?" :: base
        else base)
  pure (base.take 3)

/-- The result envelope `chat` builds and mutates (its dict literal at
lines 1726-1738, plus the `sql_source`, `sql_error` and `data_source`
keys set along the way). -/
structure ChatResult where
  session_id : String
  question : String
  timestamp : String
  classification : Option String
  analytics_type : Option String
  sql : Option String
  sql_source : Option String
  data : Option ProbeData
  data_source : Option String
  sql_error : Option String
  value_driver_calc : Option PyVal
  response : Option String
  suggestions : List String
  error : Option String

/-- The `except` handler of `chat` (lines 1919-1922): record the
exception message and substitute the fixed help text, leaving the
fields set so far in place.  No turn is appended. -/
def chatFail (message : String) (r : ChatResult) (e : String) : ChatResult :=
  { r with error := some e, response := some (generate_error_response message e) }

/-- The `try` body of `CFGUkraineAgent.chat` (lines 1740-1917), as a
function of the outcomes of its fallible sub-calls.  `classifyOracle`
is the classifier's LLM call (`classify` itself never raises);
`vdtStep` is `_apply_value_driver_analysis` (which reads the knowledge
base and can raise); `sqlGenStep` the SQL generator (an LLM call);
`execStep` the warehouse execution, whose failure is caught *inside*
the body and becomes an empty probe plus `sql_error`; `gen s` the
response text of the step-5 branch that strategy `s` selects (template
rendering and LLM calls).  An uncaught exception yields `.error` with
the result fields set so far and the message; success yields the
finished result and the memory with the turn appended (step 7, the
body's last statement).  The `data_source` writes of steps 4b-4f are
folded into one last-write-wins value. -/
def chatTry (message session_id timestamp : String)
    (classifyOracle : Except String String)
    (vdtStep : Except String (Option PyVal))
    (sqlGenStep : Except String String)
    (execStep : Except String ProbeData)
    (gen : Strategy → Except String String)
    (mem : InMemoryStore) : Except (ChatResult × String) (ChatResult × InMemoryStore) :=
  let base : ChatResult :=
    { session_id := session_id, question := message, timestamp := timestamp,
      classification := none, analytics_type := none, sql := none,
      sql_source := none, data := none, data_source := none, sql_error := none,
      value_driver_calc := none, response := none, suggestions := [], error := none }
  -- Step 1: classify (total: the classifier catches its oracle's failure).
  let classification := classify classifyOracle message
  let r :=
    { base with
      classification := some classification
      analytics_type := some (get_analytics_description classification) }
  -- Step 2: conversation context (total; consumed by the SQL generator step).
  let _context := getContext mem session_id 3
  -- Step 3: value-driver tree analysis.
  match vdtStep with
  | .error e => .error (r, e)
  | .ok vdt_result =>
  let r := { r with value_driver_calc := vdt_result }
  -- Step 4: SQL generation, then the direct-SQL override for
  -- budget-comparison queries.
  match sqlGenStep with
  | .error e => .error (r, e)
  | .ok generated_sql =>
  let isBudget := is_budget_comparison_query message
  let sql := if isBudget then forecast_budget_sql else generated_sql
  let r :=
    { r with
      sql := some sql
      sql_source := if isBudget then some "direct_template" else r.sql_source }
  -- Step 4 (execution): a connector exception is caught here and
  -- becomes an empty probe with the message in `sql_error`.
  let step4 : ProbeData × Option String :=
    match execStep with
    | .ok d => (d, none)
    | .error e => ({ columns := [], row_count := 0, error := some e }, some e)
  let data := step4.1
  let sql_error := step4.2
  let r := { r with data := some data, sql_error := sql_error }
  -- Step 4b: budget knowledge-base fallback; `get_budget_comparison`
  -- runs before `data` is replaced by the synthetic 3-row table.
  let use_kb_fallback := (data.row_count == 0 || sql_error.isSome) && isBudget
  match (if use_kb_fallback then Except.map some get_budget_comparison else .ok none) with
  | .error e => .error (r, e)
  | .ok kb_data =>
  let data := if use_kb_fallback then syntheticBudgetData else data
  -- Steps 4c-4f: crop, financial-performance, action and hybrid flags.
  let use_crop_kb := (data.row_count == 0 || sql_error.isSome)
    && is_crop_query message && vdt_result.isSome
  let use_financial_kb := (data.row_count == 0 || sql_error.isSome)
    && is_financial_performance_query message
  let use_action_kb := (data.row_count == 0 || sql_error.isSome) && is_action_query message
  let use_hybrid := data.row_count > 0 && sql_error.isNone
  let data_source :=
    if use_hybrid then some "hybrid_fabric_kb"
    else if use_kb_fallback || use_crop_kb || use_financial_kb || use_action_kb then
      some "knowledge_base"
    else r.data_source
  let r := { r with data := some data, data_source := data_source }
  -- Step 5: response generation, first applicable branch.
  let strategy :=
    if use_kb_fallback && kb_data.isSome then Strategy.KnowledgeBaseBudget
    else if use_action_kb then .KnowledgeBaseAction
    else if use_crop_kb && vdt_result.isSome then .KnowledgeBaseCrop
    else if use_financial_kb then .KnowledgeBaseFinancialPerformance
    else if use_hybrid then .HybridWarehouseAndKB
    else .WarehouseOnly
  match gen strategy with
  | .error e => .error (r, e)
  | .ok response =>
  let r := { r with response := some response }
  -- Step 6: follow-up suggestions.
  match generate_smart_suggestions message classification vdt_result with
  | .error e => .error (r, e)
  | .ok suggestions =>
  let r := { r with suggestions := suggestions }
  -- Step 7: store the turn (the body's final statement).
  let data_summary : PyVal := .dict
    [ ("row_count", .num data.row_count),
      ("columns", .list (data.columns.map PyVal.str)),
      ("vdt_applied", .bool vdt_result.isSome) ]
  .ok (r, addTurn mem session_id timestamp message classification sql response
    (some data_summary))

/-- Model of `CFGUkraineAgent.chat`: run the `try` body; on an exception apply
the single `except` handler (error message recorded, fixed help-text
response, memory untouched — the handler appends no turn). -/
def chatModel (message session_id timestamp : String)
    (classifyOracle : Except String String)
    (vdtStep : Except String (Option PyVal))
    (sqlGenStep : Except String String)
    (execStep : Except String ProbeData)
    (gen : Strategy → Except String String)
    (mem : InMemoryStore) : ChatResult × InMemoryStore :=
  match chatTry message session_id timestamp classifyOracle vdtStep sqlGenStep execStep gen mem with
  | .error (r, e) => (chatFail message r e, mem)
  | .ok rm => rm

-- ---------------------------------------------------------------------------
-- Helper definitions for the verification below.
-- ---------------------------------------------------------------------------

/-- Boolean check that an `Except` value is the `KeyError` for key `k`
(used to decide facts about the knowledge-base records by evaluation). -/
def isKeyError (x : Except String PyVal) (k : String) : Bool :=
  match x with
  | .error e => e = "KeyError: " ++ k
  | .ok _ => false

/-- The store invariant of `InMemoryStore`: every session's turn list
is bounded by `max_turns` and every stored response is at most 500
characters. -/
def storeInv (max_turns : Nat) (sessions : List (String × List Turn)) : Prop :=
  ∀ p ∈ sessions, p.2.length ≤ max_turns ∧ ∀ t ∈ p.2, t.response.length ≤ 500

-- ---------------------------------------------------------------------------
-- Helper lemmas.
-- ---------------------------------------------------------------------------

/-- A successful association-list lookup produces a member pair. -/
theorem lookup_mem {α β : Type} [BEq α] [LawfulBEq α] {l : List (α × β)} {a : α} {b : β}
    (h : List.lookup a l = some b) : (a, b) ∈ l := by
  induction l with
  | nil => simp [List.lookup] at h
  | cons p rest ih =>
    rcases p with ⟨k, v⟩
    rw [List.lookup] at h
    split at h
    · next hbeq =>
      cases h
      exact (eq_of_beq hbeq) ▸ List.mem_cons_self _ _
    · exact List.mem_cons_of_mem _ (ih h)

/-- Unfold a positive `isKeyError` check into the equation it decides. -/
theorem isKeyError_eq {x : Except String PyVal} {k : String} (h : isKeyError x k = true) :
    x = .error ("KeyError: " ++ k) := by
  cases x with
  | error e => simp only [isKeyError, decide_eq_true_eq] at h; rw [h]
  | ok v => simp [isKeyError] at h

/-- Looking up the session just written by `setSession` yields the new
turn list. -/
theorem setSession_lookup_self (sessions : List (String × List Turn)) (sid : String)
    (turns : List Turn) :
    List.lookup sid (setSession sessions sid turns) = some turns := by
  induction sessions with
  | nil => simp [setSession, List.lookup]
  | cons p rest ih =>
    rcases p with ⟨k, v⟩
    by_cases hk : k = sid
    · subst hk
      simp [setSession, List.lookup]
    · have hb : (sid == k) = false := beq_eq_false_iff_ne.mpr (Ne.symm hk)
      simp [setSession, hk, List.lookup, hb, ih]

/-- Membership after `setSession` comes from the old sessions or is the
new pair. -/
theorem setSession_mem {sessions : List (String × List Turn)} {sid : String}
    {turns : List Turn} {p : String × List Turn}
    (hp : p ∈ setSession sessions sid turns) : p ∈ sessions ∨ p = (sid, turns) := by
  induction sessions with
  | nil =>
    simp only [setSession, List.mem_singleton] at hp
    exact Or.inr hp
  | cons q rest ih =>
    rcases q with ⟨k, v⟩
    simp only [setSession] at hp
    split at hp
    · next hkeq =>
      rcases List.mem_cons.mp hp with rfl | hp2
      · right; rw [hkeq]
      · left; exact List.mem_cons_of_mem _ hp2
    · rcases List.mem_cons.mp hp with rfl | hp2
      · left; exact List.mem_cons_self _ _
      · rcases ih hp2 with h | h
        · left; exact List.mem_cons_of_mem _ h
        · right; exact h

/-- Store operations do not change `max_turns`. -/
theorem memStep_max (s : InMemoryStore) (op : MemOp) :
    (memStep s op).max_turns = s.max_turns := by
  cases op <;> rfl

/-- One store operation preserves the store invariant. -/
theorem storeInv_step (s : InMemoryStore) (op : MemOp)
    (hs : storeInv s.max_turns s.sessions) :
    storeInv s.max_turns (memStep s op).sessions := by
  cases op with
  | clear sid =>
    intro p hp
    simp only [memStep, clearSession] at hp
    exact hs p (List.mem_of_mem_filter hp)
  | add sid ts uq cls sql resp ds =>
    intro p hp
    simp only [memStep, addTurn] at hp
    rcases setSession_mem hp with hp' | rfl
    · exact hs p hp'
    · dsimp only
      set turns0 := (List.lookup sid s.sessions).getD [] with hturns0
      set turn : Turn :=
        { timestamp := ts, user_query := uq, classification := cls, sql := sql,
          response := ⟨resp.data.take 500⟩, data_summary := ds.getD (.dict []) } with hturn
      have hold : ∀ t ∈ turns0, t.response.length ≤ 500 := by
        intro t ht
        rcases hk : List.lookup sid s.sessions with _ | ts0
        · rw [hturns0, hk] at ht; simp at ht
        · rw [hturns0, hk] at ht
          exact (hs (sid, ts0) (lookup_mem hk)).2 t ht
      have hnew : turn.response.length ≤ 500 := by
        show (resp.data.take 500).length ≤ 500
        rw [List.length_take]
        exact Nat.min_le_left _ _
      constructor
      · split
        · next hgt =>
          rw [List.length_drop]
          omega
        · next hle =>
          simp only [Nat.not_lt] at hle
          exact hle
      · intro t ht
        have ht' : t ∈ turns0 ++ [turn] := by
          revert ht
          split
          · exact fun ht => List.mem_of_mem_drop ht
          · exact fun ht => ht
        rcases List.mem_append.mp ht' with h | h
        · exact hold t h
        · rw [List.mem_singleton.mp h]
          exact hnew

/-- Every store reachable from a fresh `InMemoryStore` satisfies the
invariant. -/
theorem storeInv_run (max_turns : Nat) (ops : List MemOp) :
    storeInv max_turns (runMemOps max_turns ops).sessions := by
  suffices h : ∀ (s : InMemoryStore), storeInv s.max_turns s.sessions →
      storeInv s.max_turns (ops.foldl memStep s).sessions by
    have h0 : storeInv (initStore max_turns).max_turns (initStore max_turns).sessions := by
      intro p hp
      simp [initStore] at hp
    exact h (initStore max_turns) h0
  induction ops with
  | nil => exact fun s hs => hs
  | cons op rest ih =>
    intro s hs
    have hstep : storeInv (memStep s op).max_turns (memStep s op).sessions := by
      rw [memStep_max]
      exact storeInv_step s op hs
    have := ih (memStep s op) hstep
    rwa [memStep_max] at this

/-- The LLM-fallback classifier only ever returns one of the four
category tokens. -/
theorem classify_with_llm_mem (oracle : Except String String) :
    classify_with_llm oracle = "DESCRIPTIVE" ∨ classify_with_llm oracle = "DIAGNOSTIC"
    ∨ classify_with_llm oracle = "PREDICTIVE" ∨ classify_with_llm oracle = "PRESCRIPTIVE" := by
  cases oracle with
  | error e => left; rfl
  | ok content =>
    simp only [classify_with_llm]
    split_ifs <;> simp

/-- The override check returns nothing, PREDICTIVE or DESCRIPTIVE. -/
theorem check_override_cases (ql : String) :
    check_override_patterns ql = none ∨ check_override_patterns ql = some "PREDICTIVE"
    ∨ check_override_patterns ql = some "DESCRIPTIVE" := by
  simp only [check_override_patterns]
  split_ifs <;> simp

/-- Every entry of the signal-pattern match list is one of the four
category names. -/
theorem check_signal_mem (ql strength : String) (p : String × Nat)
    (hp : p ∈ check_signal_patterns ql strength) :
    p.1 = "DESCRIPTIVE" ∨ p.1 = "DIAGNOSTIC" ∨ p.1 = "PREDICTIVE" ∨ p.1 = "PRESCRIPTIVE" := by
  simp only [check_signal_patterns, List.mem_filterMap] at hp
  rcases hp with ⟨a, ha, hfa⟩
  simp only [signalPatternsTable, List.mem_cons, List.not_mem_nil, or_false] at ha
  rcases ha with rfl | rfl | rfl | rfl <;>
    · dsimp only at hfa
      split_ifs at hfa <;> cases hfa <;> simp

/-- A successful run of the chat body leaves no error, sets a response,
and ends by appending exactly one turn for the classified message. -/
theorem chatTry_ok_shape (message session_id timestamp : String)
    (classifyOracle : Except String String) (vdtStep : Except String (Option PyVal))
    (sqlGenStep : Except String String) (execStep : Except String ProbeData)
    (gen : Strategy → Except String String) (mem : InMemoryStore)
    (rm : ChatResult × InMemoryStore)
    (h : chatTry message session_id timestamp classifyOracle vdtStep sqlGenStep execStep gen mem
      = .ok rm) :
    rm.1.error = none ∧ rm.1.response.isSome = true
    ∧ ∃ sql response data_summary,
        rm.2 = addTurn mem session_id timestamp message (classify classifyOracle message)
          sql response (some data_summary) := by
  unfold chatTry at h
  rcases vdtStep with e | vdt
  · exact absurd h (by simp)
  rcases sqlGenStep with e | generated_sql
  · exact absurd h (by simp)
  rcases execStep with e | d
  all_goals
    dsimp only at h
    split at h
    · exact absurd h (by simp)
    · split at h
      · exact absurd h (by simp)
      · split at h
        · exact absurd h (by simp)
        · cases h
          exact ⟨rfl, rfl, _, _, _, rfl⟩

-- ---------------------------------------------------------------------------
-- The claims.
-- ---------------------------------------------------------------------------

/-- C1: the claim states that for every query with an unusable data
probe (`row_count == 0` or an SQL error) and both the budget-comparison
and action-request flags true, the fallback router selects the
KnowledgeBaseBudget strategy.  In the shipped code the budget rule does
fire first (before the action rule), but firing it calls
`get_budget_comparison`, which reads `baseline["financials_ytd_may"]` —
a key the v3.0 `fy2025_baseline` does not have — so the routing segment
raises `KeyError` for every such query and the chat pipeline lands in
its error handler instead of producing a KnowledgeBaseBudget response.
This theorem evaluates the embedded routing segment at the claim's
inputs, for all values of the other topic flags. -/
theorem chatRoute_budget_raises (rowCount : Nat) (sqlError isCrop isFinancial vdtSome : Bool)
    (h : (rowCount == 0 || sqlError) = true) :
    chatRoute rowCount sqlError true isCrop isFinancial true vdtSome =
      .error "KeyError: financials_ytd_may" := by
  have hg : get_budget_comparison = Except.error "KeyError: financials_ytd_may" := rfl
  simp [chatRoute, h, hg, Except.map, Except.bind]

/-- Witness for C1 at the concrete probe `row_count = 0`, no SQL error,
all topic flags true. -/
theorem chatRoute_budget_raises_witness :
    ((0 : Nat) == 0 || false) = true
    ∧ chatRoute 0 false true true true true true = .error "KeyError: financials_ytd_may" :=
  ⟨by decide, chatRoute_budget_raises 0 false true true true (by decide)⟩

/-- C2: for every query whose data probe succeeds with `row_count > 0`
and no execution error, the fallback router selects the
HybridWarehouseAndKB strategy, regardless of the four topic flags and
of the classification; in particular none of the knowledge-base-only
strategies and not the WarehouseOnly fallback are chosen. -/
theorem chatRoute_hybrid (rowCount : Nat) (h : 0 < rowCount)
    (isBudget isCrop isFinancial isAction vdtSome : Bool) :
    chatRoute rowCount false isBudget isCrop isFinancial isAction vdtSome =
      .ok .HybridWarehouseAndKB := by
  have h0 : (rowCount == 0) = false := by
    simp [Nat.pos_iff_ne_zero.mp h]
  have h1 : decide (rowCount > 0) = true := decide_eq_true h
  simp [chatRoute, h0, h1, Except.bind]
  rfl

/-- Witness for C2 at the spec's probe `row_count = 5` with every topic
flag set. -/
theorem chatRoute_hybrid_witness :
    0 < 5
    ∧ chatRoute 5 false true true true true true = .ok .HybridWarehouseAndKB :=
  ⟨by decide, chatRoute_hybrid 5 (by decide) true true true true true⟩

/-- C3: for every query text matching a PREDICTIVE override pattern
(`\bwhat if\b` or the `<change> by N%` phrasing), `classify` returns
PREDICTIVE regardless of any other content in the message and of the
LLM oracle's behaviour, because override patterns are checked before
the strong-signal counts and the LLM fallback. -/
theorem classify_predictive_override (oracle : Except String String) (query : String)
    (h : predictiveOverride.any (fun r => reSearch r (pyStrip (pyLower query))) = true) :
    classify oracle query = "PREDICTIVE" := by
  simp only [classify, check_override_patterns, h, if_true]

/-- Witness for C3 on the spec's example query, with a failing oracle. -/
theorem classify_predictive_override_witness :
    predictiveOverride.any
        (fun r => reSearch r (pyStrip (pyLower "What if wheat prices drop by 15%?"))) = true
    ∧ classify (.error "connection refused") "What if wheat prices drop by 15%?" = "PREDICTIVE" :=
  ⟨by decide, classify_predictive_override _ _ (by decide)⟩

/-- C4: `classify` never propagates an error: for every query and every
oracle outcome it returns one of the four category tokens; and when no
override pattern and no strong-signal pattern matches and the oracle
raises, it returns the DESCRIPTIVE safe default. -/
theorem classify_never_raises :
    (∀ oracle query, classify oracle query = "DESCRIPTIVE" ∨ classify oracle query = "DIAGNOSTIC"
      ∨ classify oracle query = "PREDICTIVE" ∨ classify oracle query = "PRESCRIPTIVE")
    ∧ (∀ query e, check_override_patterns (pyStrip (pyLower query)) = none →
        check_signal_patterns (pyStrip (pyLower query)) "strong" = [] →
        classify (.error e) query = "DESCRIPTIVE") := by
  constructor
  · intro oracle query
    simp only [classify]
    rcases check_override_cases (pyStrip (pyLower query)) with h | h | h <;> rw [h]
    · cases hs : check_signal_patterns (pyStrip (pyLower query)) "strong" with
      | nil => simp only [ite_self]; exact classify_with_llm_mem oracle
      | cons p rest =>
        cases rest with
        | nil =>
          have := check_signal_mem (pyStrip (pyLower query)) "strong" p
            (hs ▸ List.mem_cons_self _ _)
          simpa using this
        | cons q rest2 => exact classify_with_llm_mem oracle
    · right; right; left; rfl
    · left; rfl
  · intro query e h1 h2
    simp only [classify, h1, h2, ite_self]
    rfl

/-- Witness for C4 on a query matching no pattern at all, with a
well-formed and with a raising oracle. -/
theorem classify_never_raises_witness :
    (classify (.ok "no category here") "zzz" = "DESCRIPTIVE"
      ∨ classify (.ok "no category here") "zzz" = "DIAGNOSTIC"
      ∨ classify (.ok "no category here") "zzz" = "PREDICTIVE"
      ∨ classify (.ok "no category here") "zzz" = "PRESCRIPTIVE")
    ∧ classify (.error "timeout") "zzz" = "DESCRIPTIVE" :=
  ⟨classify_never_raises.1 (.ok "no category here") "zzz",
   classify_never_raises.2 "zzz" "timeout" (by decide) (by decide)⟩

/-- C5: the claim states `calculate_gross_margin` returns without
raising, with `gross_margin = revenue - cost` and a guarded
`gm_percent`.  In the shipped code every call raises
`KeyError('area')`: the per-crop branch reads `crop_data["area"]`,
`["yield"]`, `["price"]`, and the all-crops branch reads the same keys
of the first crop record, but every v3.0 crop record keys its area as
`area_ha` and has no `yield` or `price` key at all.  This theorem
evaluates the embedded code on every crop argument (a present crop
name, an absent one, and `None` alike). -/
theorem calculate_gross_margin_raises (crop : Option String) :
    calculate_gross_margin crop = .error "KeyError: area" := by
  have hall : calculate_gross_margin_all = .error "KeyError: area" := rfl
  cases crop with
  | none => exact hall
  | some c =>
    have heq : calculate_gross_margin (some c) =
        (if c ≠ "" && pyHasKey (PyVal.dict kbCrops) c then
          Except.bind (dictGet (PyVal.dict kbCrops) c)
            (fun crop_data => calculate_gross_margin_crop c crop_data)
        else calculate_gross_margin_all) := rfl
    rw [heq]
    by_cases hc : c = ""
    · subst hc; simp [hall]
    · cases hk : List.lookup c kbCrops with
      | none =>
        have hfalse : pyHasKey (PyVal.dict kbCrops) c = false := by simp [pyHasKey, hk]
        simp [hfalse, hall]
      | some rec =>
        have htrue : pyHasKey (PyVal.dict kbCrops) c = true := by simp [pyHasKey, hk]
        have hget : dictGet (PyVal.dict kbCrops) c = .ok rec := by simp [dictGet, hk]
        have hdec : ∀ p ∈ kbCrops, isKeyError (dictGet p.2 "area") "area" = true := by decide
        have harea : dictGet rec "area" = .error "KeyError: area" :=
          isKeyError_eq (hdec (c, rec) (lookup_mem hk))
        simp only [htrue, hc, hget, calculate_gross_margin_crop, harea, ne_eq,
          not_false_eq_true, decide_True, Bool.and_self, if_true, Except.bind]
        rfl

/-- C6: the claim states that a driver present in the sensitivity table
yields `impact = stored per-10% constant × change_pct/10` without
raising, and an absent driver yields a structured error value.  In the
shipped code the second half holds, but the first is wrong: the table
stores the constant under `per_10pct_change_usd` while the code reads
`sens["per_10pct"]`, so every in-table driver raises `KeyError`.  This
theorem evaluates the embedded code on both sides, for every driver and
every change percentage. -/
theorem calculate_sensitivity_behavior :
    (∀ driver, pyHasKey kbSensitivities driver = true →
      ∀ change_pct : Rat, calculate_sensitivity driver change_pct = .error "KeyError: per_10pct")
    ∧ (∀ driver, pyHasKey kbSensitivities driver = false →
      ∀ change_pct : Rat, calculate_sensitivity driver change_pct =
        .ok (.dict [("driver", .str driver),
          ("error", .str ("Driver '" ++ driver ++ "' not found in sensitivity table"))])) := by
  constructor
  · intro driver h change_pct
    have heq : calculate_sensitivity driver change_pct =
        (if pyHasKey kbSensitivities driver then
          Except.bind (dictGet kbSensitivities driver)
            (calculate_sensitivity_known driver change_pct)
        else .ok (.dict [("driver", .str driver),
          ("error", .str ("Driver '" ++ driver ++ "' not found in sensitivity table"))])) := rfl
    rw [heq, h]
    simp only [if_true]
    have h' : (List.lookup driver (dictItems kbSensitivities)).isSome = true := h
    rcases Option.isSome_iff_exists.mp h' with ⟨rec, hk⟩
    have hget : dictGet kbSensitivities driver = .ok rec := by
      have hd : dictGet kbSensitivities driver =
          (match List.lookup driver (dictItems kbSensitivities) with
            | some v => Except.ok v
            | none => Except.error ("KeyError: " ++ driver)) := rfl
      rw [hd, hk]
    have hdec : ∀ p ∈ dictItems kbSensitivities,
        isKeyError (dictGet p.2 "per_10pct") "per_10pct" = true := by decide
    have hper : dictGet rec "per_10pct" = .error "KeyError: per_10pct" :=
      isKeyError_eq (hdec (driver, rec) (lookup_mem hk))
    rw [hget]
    simp only [Except.bind, calculate_sensitivity_known, hper]
    rfl
  · intro driver h change_pct
    have heq : calculate_sensitivity driver change_pct =
        (if pyHasKey kbSensitivities driver then
          Except.bind (dictGet kbSensitivities driver)
            (calculate_sensitivity_known driver change_pct)
        else .ok (.dict [("driver", .str driver),
          ("error", .str ("Driver '" ++ driver ++ "' not found in sensitivity table"))])) := rfl
    rw [heq, h]
    simp

/-- Witness for C6 on the in-table driver `wheat_price` and the absent
driver `rainfall`, both at the default 10% change. -/
theorem calculate_sensitivity_behavior_witness :
    pyHasKey kbSensitivities "wheat_price" = true
    ∧ calculate_sensitivity "wheat_price" 10 = .error "KeyError: per_10pct"
    ∧ pyHasKey kbSensitivities "rainfall" = false
    ∧ calculate_sensitivity "rainfall" 10 =
        .ok (.dict [("driver", .str "rainfall"),
          ("error", .str ("Driver '" ++ "rainfall" ++ "' not found in sensitivity table"))]) :=
  ⟨by decide, calculate_sensitivity_behavior.1 "wheat_price" (by decide) 10,
   by decide, calculate_sensitivity_behavior.2 "rainfall" (by decide) 10⟩

/-- C7: the claim states `decompose_variance("net_income")` returns a
total variance equal to forecast minus budget net income with driver
amounts summing to it.  In the shipped code the call raises
`KeyError('price_variances')` at its second statement, because
KNOWLEDGE_BASE v3.0 has no `price_variances` top-level key; no result
is ever produced.  This theorem evaluates the embedded code at the
claim's input. -/
theorem decompose_variance_raises :
    decompose_variance "net_income" = .error "KeyError: price_variances" := rfl

/-- C8 (amended): for every message containing exactly two `?`
characters, the decomposer splits on `?` and returns exactly the
fragments whose stripped text is non-empty and longer than 10
characters, each re-terminated with `?` (so each returned fragment is
some text of more than 10 characters followed by `?`); when no fragment
qualifies it returns the whole message as a single element.  The
original claim — always exactly two fragments — fails when a fragment
is 10 characters or shorter (see the counterexample). -/
theorem decompose_questions_two_qmarks (message : String)
    (h : pyCountChar message '?' = 2) :
    decompose_questions message =
      (if ((pySplitOn message '?').filterMap (keepFragment false)).isEmpty then [message]
        else (pySplitOn message '?').filterMap (keepFragment false))
    ∧ ∀ q ∈ (pySplitOn message '?').filterMap (keepFragment false),
        ∃ frag, q = frag ++ "?" ∧ 10 < frag.length := by
  constructor
  · have hgt : pyCountChar message '?' > 1 := by rw [h]; norm_num
    simp only [decompose_questions, if_pos hgt]
  · intro q hq
    rcases List.mem_filterMap.mp hq with ⟨part, _, hkeep⟩
    simp only [keepFragment] at hkeep
    split_ifs at hkeep with h1 h2
    · simp at h2
    · cases hkeep
      refine ⟨pyStrip part, rfl, ?_⟩
      simp only [Bool.and_eq_true, decide_eq_true_eq] at h1
      exact h1.2

/-- Witness for C8 on the spec's two-question message, where both
fragments qualify and exactly two re-terminated questions come back. -/
theorem decompose_questions_two_qmarks_witness :
    decompose_questions "What is revenue? Why did it beat budget?" =
      ["What is revenue?", "Why did it beat budget?"] := by
  have h := decompose_questions_two_qmarks "What is revenue? Why did it beat budget?" (by decide)
  rw [h.1]
  decide

/-- Counterexample for C8 as stated: the message `"Hi? Ok?"` contains
exactly two `?` but both fragments strip to 10 characters or fewer, so
the decomposer returns the original message as one element — not two
non-empty re-terminated fragments. -/
theorem decompose_questions_claim_false :
    pyCountChar "Hi? Ok?" '?' = 2
    ∧ decompose_questions "Hi? Ok?" = ["Hi? Ok?"]
    ∧ (decompose_questions "Hi? Ok?").length ≠ 2 := by
  refine ⟨by decide, by decide, by decide⟩

/-- C9 (amended): whatever its fallible steps do, `chat` returns a
well-formed result whose response is always present; when a step raises,
the error field holds the exception message and the response is the
fixed help text — but NO turn is appended to the session (the memory is
returned unchanged); a turn is appended exactly on full success, as the
last statement of the `try` body.  The original claim — that a turn
recording the error is still appended — fails (see the
counterexample). -/
theorem chat_error_envelope (message session_id timestamp : String)
    (classifyOracle : Except String String) (vdtStep : Except String (Option PyVal))
    (sqlGenStep : Except String String) (execStep : Except String ProbeData)
    (gen : Strategy → Except String String) (mem : InMemoryStore)
    (out : ChatResult × InMemoryStore)
    (hout : out = chatModel message session_id timestamp classifyOracle vdtStep sqlGenStep
      execStep gen mem) :
    (out.1.response.isSome = true)
    ∧ (∀ e, out.1.error = some e →
        out.1.response = some (generate_error_response message e) ∧ out.2 = mem)
    ∧ (out.1.error = none →
        ∃ sql response data_summary,
          out.2 = addTurn mem session_id timestamp message (classify classifyOracle message)
            sql response (some data_summary)) := by
  subst hout
  unfold chatModel
  rcases htry : chatTry message session_id timestamp classifyOracle vdtStep sqlGenStep
      execStep gen mem with ⟨r, e⟩ | rm
  · refine ⟨rfl, fun e' he' => ?_, fun hn => ?_⟩
    · simp only [chatFail] at he' ⊢
      cases he'
      exact ⟨rfl, trivial⟩
    · simp [chatFail] at hn
  · obtain ⟨h1, h2, h3⟩ := chatTry_ok_shape message session_id timestamp classifyOracle
      vdtStep sqlGenStep execStep gen mem rm htry
    exact ⟨h2, fun e he => absurd (h1 ▸ he) (by simp), fun _ => h3⟩

/-- Witness for C9 on a concrete run whose response-generation step
raises. -/
theorem chat_error_envelope_witness :
    ((chatModel "zzz" "s" "t" (.error "x") (.ok none) (.ok "SELECT 1")
        (.ok { columns := ["a"], row_count := 5, error := none })
        (fun _ => .error "boom") (initStore 10)).1.response.isSome = true) := by
  have h := chat_error_envelope "zzz" "s" "t" (.error "x") (.ok none) (.ok "SELECT 1")
    (.ok { columns := ["a"], row_count := 5, error := none }) (fun _ => .error "boom")
    (initStore 10) _ rfl
  exact h.1

/-- Counterexample for C9 as stated: a run whose response-generation
step raises leaves the error recorded in the result, yet the session
store still holds no session at all — no turn recording the error was
appended. -/
theorem chat_error_no_turn_appended :
    (chatModel "zzz" "s" "t" (.error "x") (.ok none) (.ok "SELECT 1")
        (.ok { columns := ["a"], row_count := 5, error := none })
        (fun _ => .error "boom") (initStore 10)).1.error = some "boom"
    ∧ (chatModel "zzz" "s" "t" (.error "x") (.ok none) (.ok "SELECT 1")
        (.ok { columns := ["a"], row_count := 5, error := none })
        (fun _ => .error "boom") (initStore 10)).2.sessions.length = 0 :=
  ⟨rfl, rfl⟩

/-- C10 (amended): under every sequence of store operations, every
session's turn list stays bounded by `max_turns` with each stored
response truncated to at most 500 characters; each `add_turn` produces
a suffix of the old list plus the new turn (oldest evicted first) of
length `min (old + 1) max_turns`; `get_context` returns the empty list
for an unknown session, and for `n ≥ 1` the last `n` turns in
chronological order.  The original claim — the last `n` turns for every
`n` — fails at `n = 0`, where Python's `[-0:]` slice returns the whole
list (see the counterexample). -/
theorem inMemoryStore_invariants :
    (∀ max_turns ops session_id turns,
      List.lookup session_id (runMemOps max_turns ops).sessions = some turns →
        turns.length ≤ max_turns ∧ ∀ t ∈ turns, t.response.length ≤ 500)
    ∧ (∀ (store : InMemoryStore) session_id timestamp uq cls sql resp ds new,
        List.lookup session_id
            (addTurn store session_id timestamp uq cls sql resp ds).sessions = some new →
        new.length = min (((List.lookup session_id store.sessions).getD []).length + 1)
            store.max_turns
          ∧ new <:+ ((List.lookup session_id store.sessions).getD []
              ++ [⟨timestamp, uq, cls, sql, ⟨resp.data.take 500⟩, ds.getD (.dict [])⟩]))
    ∧ (∀ (store : InMemoryStore) session_id n,
        List.lookup session_id store.sessions = none → getContext store session_id n = [])
    ∧ (∀ (store : InMemoryStore) session_id n turns,
        List.lookup session_id store.sessions = some turns → 1 ≤ n →
          getContext store session_id n = (turns.reverse.take n).reverse) := by
  refine ⟨?_, ?_, ?_, ?_⟩
  · intro max_turns ops session_id turns hl
    exact (storeInv_run max_turns ops) (session_id, turns) (lookup_mem hl)
  · intro store session_id timestamp uq cls sql resp ds new hl
    simp only [addTurn, setSession_lookup_self] at hl
    cases hl
    constructor
    · split
      · next hgt =>
        rw [List.length_drop]
        simp only [List.length_append, List.length_singleton] at hgt ⊢
        omega
      · next hle =>
        simp only [Nat.not_lt, List.length_append, List.length_singleton] at hle ⊢
        omega
    · split
      · exact List.drop_suffix _ _
      · exact List.suffix_refl _
  · intro store session_id n hl
    simp [getContext, hl]
  · intro store session_id n turns hl hn
    have h0 : ¬ n = 0 := by omega
    simp only [getContext, hl, if_neg h0]
    have h := List.rtake_eq_reverse_take_reverse (l := turns) (n := n)
    rw [List.rtake] at h
    exact h

/-- Witness for C10 on a one-turn store: the bounds, the
unknown-session case and the `n = 1` retrieval. -/
theorem inMemoryStore_invariants_witness :
    (([(⟨"t1", "q", "D", "sql", "r", PyVal.dict []⟩ : Turn)] : List Turn).length ≤ 10
      ∧ ∀ t ∈ ([(⟨"t1", "q", "D", "sql", "r", PyVal.dict []⟩ : Turn)] : List Turn),
          t.response.length ≤ 500)
    ∧ getContext (initStore 10) "nobody" 5 = []
    ∧ getContext (runMemOps 10 [.add "s" "t1" "q" "D" "sql" "r" none]) "s" 1 =
        [(⟨"t1", "q", "D", "sql", "r", PyVal.dict []⟩ : Turn)] := by
  refine ⟨?_, ?_, ?_⟩
  · exact inMemoryStore_invariants.1 10 [.add "s" "t1" "q" "D" "sql" "r" none] "s" _ rfl
  · exact inMemoryStore_invariants.2.2.1 (initStore 10) "nobody" 5 rfl
  · exact inMemoryStore_invariants.2.2.2 (runMemOps 10 [.add "s" "t1" "q" "D" "sql" "r" none])
      "s" 1 _ rfl (by omega)

/-- Counterexample for C10 as stated: after one `add_turn`,
`get_context(session, 0)` returns one turn — Python's `[-0:]` slice is
the whole list — while the claim's "last `n` turns" would be the empty
list for `n = 0`. -/
theorem getContext_zero_counterexample :
    (getContext (runMemOps 10 [.add "s" "t1" "q" "D" "sql" "r" none]) "s" 0).length = 1 := rfl
